import Mathlib

/-!
Verification of the nanocl daemon's core against its specification.

Shallow embedding of the relevant Rust sources:
* `src/bin/nanocld/src/objects/generic/process.rs` (process reconciler)
* `src/bin/nanocld/src/utils/state.rs` (state pipeline)
* `src/bin/nanocld/src/utils/vm.rs` (VM container derivation)
* `src/bin/nanocld/src/repositories/spec.rs` (spec registry)
* `src/bin/nanocld/src/repositories/node.rs` (node registry)

Async functions become pure Lean functions over explicit inputs (database
rows, runtime-call outcomes passed as oracles); side effects (runtime calls,
row writes, emitted events, progress-stream messages) become explicit trace
elements returned alongside the result.
-/

namespace Nanocl

/-! ## Object status kinds (nanocl_stubs `ObjPsStatusKind`) -/

/-- The lifecycle states of `ObjPsStatusKind`. -/
inductive ObjPsStatusKind
  | created
  | starting
  | running
  | stopping
  | stopped
  | failed
  | unknown
  deriving DecidableEq, Repr

/-- `ObjPsStatusKind::to_string`, as stored in the status row. -/
def ObjPsStatusKind.toStr : ObjPsStatusKind → String
  | .created => "Created"
  | .starting => "Starting"
  | .running => "Running"
  | .stopping => "Stopping"
  | .stopped => "Stopped"
  | .failed => "Failed"
  | .unknown => "Unknown"

/-- A row of the object-status table (`ObjPsStatusDb`): the textual
`wanted`/`actual` pair plus their previous values. -/
structure ObjPsStatus where
  wanted : String
  actual : String
  prev_wanted : String
  prev_actual : String
  deriving DecidableEq, Repr

/-- `ObjPsStatusUpdate`: a partial update — `some` fields are written,
`none` fields keep the stored value (diesel changeset semantics). -/
structure ObjPsStatusUpdate where
  wanted : Option String
  prev_wanted : Option String
  actual : Option String
  prev_actual : Option String
  deriving DecidableEq, Repr

/-- Applying an `ObjPsStatusUpdate` to a stored row (diesel
`update ... set(values)` with optional changeset fields). -/
def ObjPsStatus.applyUpdate (s : ObjPsStatus) (u : ObjPsStatusUpdate) :
    ObjPsStatus :=
  { wanted := u.wanted.getD s.wanted
    actual := u.actual.getD s.actual
    prev_wanted := u.prev_wanted.getD s.prev_wanted
    prev_actual := u.prev_actual.getD s.prev_actual }

/-! ## Native event actions (the subset emitted by process.rs) -/

/-- `NativeEventAction` values the process reconciler emits. -/
inductive NativeEventAction
  | starting
  | stopping
  | restart
  deriving DecidableEq, Repr

/-! ## Process rows (`ProcessDb`), container-inspect state -/

/-- The container-inspect `State` payload fields used by the reconciler
(`process.data.state`): only `running` is consulted. -/
structure ProcessState where
  running : Option Bool
  deriving DecidableEq, Repr

instance : Inhabited ProcessState := ⟨{ running := none }⟩

/-- The container-inspect payload fields used by `stop_process_by_kind_key`:
`state` and `id`. -/
structure ProcessData where
  state : Option ProcessState
  id : Option String
  deriving DecidableEq, Repr

/-- A `Process` row as read by the reconciler: its primary key and the
container-inspect payload. -/
structure Process where
  key : String
  data : ProcessData
  deriving DecidableEq, Repr

/-! ## `start_process_by_kind_key` (process.rs lines 56-78) -/

/-- An observable effect of `start_process_by_kind_key`: either the status-row
update issued through `ObjPsStatusDb::update_pk`, or the native event emitted
through `_emit`. -/
inductive StartEffect
  | updateStatus (u : ObjPsStatusUpdate)
  | emit (a : NativeEventAction)
  deriving DecidableEq, Repr

/-- `start_process_by_kind_key`, given the current status row read by
`ObjPsStatusDb::read_by_pk`. Returns the ordered list of effects it issues:
nothing when `actual` is already `Running`, otherwise the status update
followed by the `Starting` event. -/
def start_process_by_kind_key (current_status : ObjPsStatus) :
    List StartEffect :=
  if current_status.actual = ObjPsStatusKind.running.toStr then
    []
  else
    [ .updateStatus
        { wanted := some ObjPsStatusKind.running.toStr
          prev_wanted := some current_status.wanted
          actual := some ObjPsStatusKind.starting.toStr
          prev_actual := some current_status.actual }
    , .emit .starting ]

/-! ## `stop_process_by_kind_key` (process.rs lines 80-101) -/

/-- An observable effect of `stop_process_by_kind_key`: a runtime
`stop_container` call, or the native event emitted after the loop. -/
inductive StopEffect
  | stopContainer (id : String)
  | emit (a : NativeEventAction)
  deriving DecidableEq, Repr

/-- How the `for process in processes` loop of `stop_process_by_kind_key`
terminates: it ran through every process, it hit the `return Ok(())` on a
non-running process, or a runtime stop call failed (`.await?`). -/
inductive StopLoopOut
  | completed
  | earlyOk
  | failed (e : String)
  deriving DecidableEq, Repr

/-- Whether the reconciler considers a process row running:
`process.data.state.unwrap_or_default().running.unwrap_or_default()`. -/
def Process.isRunning (p : Process) : Bool :=
  ((p.data.state.getD default).running.getD false)

/-- The container id passed to `stop_container`:
`process.data.id.unwrap_or_default()`. -/
def Process.containerId (p : Process) : String :=
  p.data.id.getD ""

/-- The `for process in processes` loop of `stop_process_by_kind_key`.
`docker` is the runtime's response to `stop_container` per container id. -/
def stop_loop (docker : String → Except String Unit) :
    List Process → StopLoopOut × List StopEffect
  | [] => (.completed, [])
  | p :: rest =>
    if !p.isRunning then
      (.earlyOk, [])
    else
      match docker p.containerId with
      | .error e => (.failed e, [])
      | .ok () =>
        let (out, effs) := stop_loop docker rest
        (out, .stopContainer p.containerId :: effs)

/-- `stop_process_by_kind_key`, given the `Process` rows read by
`ProcessDb::read_by_kind_key` and the runtime's stop outcomes. Returns the
overall result and the ordered effect trace. The `Stopping` event is emitted
only when the loop runs to completion; the early `return Ok(())` on a
non-running process skips it. -/
def stop_process_by_kind_key (docker : String → Except String Unit)
    (processes : List Process) : Except String Unit × List StopEffect :=
  match stop_loop docker processes with
  | (.completed, effs) => (.ok (), effs ++ [.emit .stopping])
  | (.earlyOk, effs) => (.ok (), effs)
  | (.failed e, effs) => (.error e, effs)

/-! ## `del_process_by_pk` (process.rs lines 134-157) -/

/-- The runtime errors distinguished by `del_process_by_pk`:
`DockerResponseServerError { status_code, message }` versus anything else. -/
inductive DockerErr
  | serverError (status_code : Nat) (message : String)
  | other (message : String)
  deriving DecidableEq, Repr

/-- An observable effect of `del_process_by_pk`: the runtime
`remove_container` call and the `ProcessDb::del_by_pk` row deletion. -/
inductive DelEffect
  | removeContainer (pk : String)
  | delProcessRow (pk : String)
  deriving DecidableEq, Repr

/-- `del_process_by_pk`, given the runtime's `remove_container` outcome for
the primary key. A `DockerResponseServerError` with status 404 is swallowed;
every other error returns before the row deletion. -/
def del_process_by_pk (docker : String → Except DockerErr Unit)
    (pk : String) : Except DockerErr Unit × List DelEffect :=
  match docker pk with
  | .ok () => (.ok (), [.removeContainer pk, .delProcessRow pk])
  | .error err =>
    match err with
    | .serverError status_code _ =>
      if status_code ≠ 404 then
        (.error err, [.removeContainer pk])
      else
        (.ok (), [.removeContainer pk, .delProcessRow pk])
    | .other _ => (.error err, [.removeContainer pk])

/-! ## JSON values (`serde_json::Value`) -/

/-- A JSON value, embedding `serde_json::Value`. Numbers are modelled as
integers (the payloads serialised here carry only integral numbers). -/
inductive Json
  | null
  | bool (b : Bool)
  | num (n : Int)
  | str (s : String)
  | arr (elems : List Json)
  | obj (fields : List (String × Json))
  deriving Repr

/-- Field lookup in a JSON object's field list (first match wins, as for
`serde_json::Map` built from distinct keys). -/
def getField (fields : List (String × Json)) (k : String) : Option Json :=
  match fields.find? (fun kv => kv.1 = k) with
  | some kv => some kv.2
  | none => none

/-- A field entry serialised under `skip_serializing_if = "Option::is_none"`:
absent when `none`, a single key-value pair when `some`. -/
def optField (k : String) (f : α → Json) : Option α → List (String × Json)
  | none => []
  | some a => [(k, f a)]

/-- Encoding of an optional string field where `none` is serialised as JSON
`null` (fields without `skip_serializing_if`). -/
def encOptStr : Option String → Json
  | none => .null
  | some s => .str s

/-- Decoding inverse of `encOptStr`. -/
def decOptStr : Json → Option (Option String)
  | .null => some none
  | .str s => some (some s)
  | _ => none

/-- Encoding of an optional boolean field, `none` as `null`. -/
def encOptBool : Option Bool → Json
  | none => .null
  | some b => .bool b

/-- Decoding inverse of `encOptBool`. -/
def decOptBool : Json → Option (Option Bool)
  | .null => some none
  | .bool b => some (some b)
  | _ => none

/-- Encoding of a string list as a JSON array. -/
def encStrList (xs : List String) : Json :=
  .arr (xs.map .str)

/-- Decoding inverse of `encStrList`. -/
def decStrList : Json → Option (List String)
  | .arr elems =>
    elems.foldr
      (fun e acc =>
        match e, acc with
        | .str s, some xs => some (s :: xs)
        | _, _ => none)
      (some [])
  | _ => none

/-- Encoding of an optional string list, `none` as `null`. -/
def encOptStrList : Option (List String) → Json
  | none => .null
  | some xs => encStrList xs

/-- Decoding inverse of `encOptStrList`. -/
def decOptStrList : Json → Option (Option (List String))
  | .null => some none
  | .arr elems =>
    match decStrList (.arr elems) with
    | some xs => some (some xs)
    | none => none
  | _ => none

/-! ## Replication mode (nanocl_stubs `ReplicationMode`) -/

/-- `ReplicationMode`: the tagged union configuring cargo replication.
`Static`/`StaticByNodes` wrap `ReplicationStatic { number: usize }`;
the `StaticByNodeGroups`/`StaticByNodeNames` struct variants carry an
`i64` number. -/
inductive ReplicationMode
  | auto
  | unique
  | uniqueByNode
  | uniqueByNodeGroups (groups : List String)
  | uniqueByNodeNames (names : List String)
  | staticReplica (number : Nat)
  | staticByNodes (number : Nat)
  | staticByNodeGroups (groups : List String) (number : Int)
  | staticByNodeNames (names : List String) (number : Int)
  deriving DecidableEq, Repr

/-- serde encoding of `ReplicationMode`: internally tagged with `Mode`,
variant names in PascalCase; the `ReplicationStatic` payload field is
renamed to `Number` (its own PascalCase rename), while the struct-variant
fields keep their declared names. -/
def encodeReplicationMode : ReplicationMode → Json
  | .auto => .obj [("Mode", .str "Auto")]
  | .unique => .obj [("Mode", .str "Unique")]
  | .uniqueByNode => .obj [("Mode", .str "UniqueByNode")]
  | .uniqueByNodeGroups groups =>
    .obj [("Mode", .str "UniqueByNodeGroups"), ("groups", encStrList groups)]
  | .uniqueByNodeNames names =>
    .obj [("Mode", .str "UniqueByNodeNames"), ("names", encStrList names)]
  | .staticReplica number =>
    .obj [("Mode", .str "Static"), ("Number", .num number)]
  | .staticByNodes number =>
    .obj [("Mode", .str "StaticByNodes"), ("Number", .num number)]
  | .staticByNodeGroups groups number =>
    .obj [("Mode", .str "StaticByNodeGroups"), ("groups", encStrList groups),
      ("number", .num number)]
  | .staticByNodeNames names number =>
    .obj [("Mode", .str "StaticByNodeNames"), ("names", encStrList names),
      ("number", .num number)]

/-- serde decoding of `ReplicationMode`, the inverse of the encoding on
its image (unknown `Mode` tags and malformed payloads are rejected). -/
def decodeReplicationMode : Json → Option ReplicationMode
  | .obj [("Mode", .str "Auto")] => some .auto
  | .obj [("Mode", .str "Unique")] => some .unique
  | .obj [("Mode", .str "UniqueByNode")] => some .uniqueByNode
  | .obj [("Mode", .str "UniqueByNodeGroups"), ("groups", g)] =>
    match decStrList g with
    | some groups => some (.uniqueByNodeGroups groups)
    | none => none
  | .obj [("Mode", .str "UniqueByNodeNames"), ("names", g)] =>
    match decStrList g with
    | some names => some (.uniqueByNodeNames names)
    | none => none
  | .obj [("Mode", .str "Static"), ("Number", .num n)] =>
    some (.staticReplica n.toNat)
  | .obj [("Mode", .str "StaticByNodes"), ("Number", .num n)] =>
    some (.staticByNodes n.toNat)
  | .obj [("Mode", .str "StaticByNodeGroups"), ("groups", g), ("number", .num n)] =>
    match decStrList g with
    | some groups => some (.staticByNodeGroups groups n)
    | none => none
  | .obj [("Mode", .str "StaticByNodeNames"), ("names", g), ("number", .num n)] =>
    match decStrList g with
    | some names => some (.staticByNodeNames names n)
    | none => none
  | _ => none

/-! ## Container configuration (bollard `Config`, aliased `ContainerSpec`) -/

/-- bollard `DeviceMapping`: a host-device mapping entry of the container
host configuration. -/
structure DeviceMapping where
  path_on_host : Option String := none
  path_in_container : Option String := none
  cgroup_permissions : Option String := none
  deriving DecidableEq, Repr

/-- bollard `HostConfig`, restricted to the fields this repository sets
(the remaining fields of the external Docker type are left at their
defaults by the source and are omitted). -/
structure HostConfig where
  network_mode : Option String := none
  binds : Option (List String) := none
  devices : Option (List DeviceMapping) := none
  cap_add : Option (List String) := none
  deriving DecidableEq, Repr

/-- bollard container `Config` (aliased `ContainerSpec` by nanocl_stubs),
restricted to the fields this repository sets; `Default::default()` is the
record with every field `none`. -/
structure ContainerSpec where
  image : Option String := none
  tty : Option Bool := none
  hostname : Option String := none
  env : Option (List String) := none
  labels : Option (List (String × String)) := none
  cmd : Option (List String) := none
  attach_stderr : Option Bool := none
  attach_stdin : Option Bool := none
  attach_stdout : Option Bool := none
  open_stdin : Option Bool := none
  host_config : Option HostConfig := none
  deriving DecidableEq, Repr

/-- JSON encoding of a `DeviceMapping`. -/
def encodeDeviceMapping (d : DeviceMapping) : Json :=
  .obj [("PathOnHost", encOptStr d.path_on_host),
    ("PathInContainer", encOptStr d.path_in_container),
    ("CgroupPermissions", encOptStr d.cgroup_permissions)]

/-- JSON decoding inverse of `encodeDeviceMapping`. -/
def decodeDeviceMapping : Json → Option DeviceMapping
  | .obj [("PathOnHost", h), ("PathInContainer", c), ("CgroupPermissions", p)] =>
    match decOptStr h, decOptStr c, decOptStr p with
    | some h', some c', some p' =>
      some { path_on_host := h'
             path_in_container := c'
             cgroup_permissions := p' }
    | _, _, _ => none
  | _ => none

/-- Encoding of an optional device-mapping list, `none` as `null`. -/
def encOptDevices : Option (List DeviceMapping) → Json
  | none => .null
  | some ds => .arr (ds.map encodeDeviceMapping)

/-- Decoding inverse of `encOptDevices`. -/
def decOptDevices : Json → Option (Option (List DeviceMapping))
  | .null => some none
  | .arr elems =>
    match
      elems.foldr
        (fun e acc =>
          match decodeDeviceMapping e, acc with
          | some d, some ds => some (d :: ds)
          | _, _ => none)
        (some ([] : List DeviceMapping))
    with
    | some ds => some (some ds)
    | none => none
  | _ => none

/-- JSON encoding of the restricted `HostConfig`. -/
def encodeHostConfig (h : HostConfig) : Json :=
  .obj [("NetworkMode", encOptStr h.network_mode),
    ("Binds", encOptStrList h.binds),
    ("Devices", encOptDevices h.devices),
    ("CapAdd", encOptStrList h.cap_add)]

/-- JSON decoding inverse of `encodeHostConfig`. -/
def decodeHostConfig : Json → Option HostConfig
  | .obj [("NetworkMode", nm), ("Binds", b), ("Devices", d), ("CapAdd", c)] =>
    match decOptStr nm, decOptStrList b, decOptDevices d, decOptStrList c with
    | some nm', some b', some d', some c' =>
      some { network_mode := nm'
             binds := b'
             devices := d'
             cap_add := c' }
    | _, _, _, _ => none
  | _ => none

/-- Encoding of an optional label map as a JSON object, `none` as `null`. -/
def encOptLabels : Option (List (String × String)) → Json
  | none => .null
  | some ls => .obj (ls.map (fun kv => (kv.1, .str kv.2)))

/-- Decoding inverse of `encOptLabels`. -/
def decOptLabels : Json → Option (Option (List (String × String)))
  | .null => some none
  | .obj fields =>
    match
      fields.foldr
        (fun kv acc =>
          match kv.2, acc with
          | .str v, some ls => some ((kv.1, v) :: ls)
          | _, _ => none)
        (some ([] : List (String × String)))
    with
    | some ls => some (some ls)
    | none => none
  | _ => none

/-- Encoding of an optional nested host configuration, `none` as `null`. -/
def encOptHostConfig : Option HostConfig → Json
  | none => .null
  | some h => encodeHostConfig h

/-- Decoding inverse of `encOptHostConfig`. -/
def decOptHostConfig : Json → Option (Option HostConfig)
  | .null => some none
  | .obj fields =>
    match decodeHostConfig (.obj fields) with
    | some h => some (some h)
    | none => none
  | _ => none

/-- JSON encoding of the container `Config` (fixed field order). -/
def encodeContainerSpec (c : ContainerSpec) : Json :=
  .obj [("Image", encOptStr c.image),
    ("Tty", encOptBool c.tty),
    ("Hostname", encOptStr c.hostname),
    ("Env", encOptStrList c.env),
    ("Labels", encOptLabels c.labels),
    ("Cmd", encOptStrList c.cmd),
    ("AttachStderr", encOptBool c.attach_stderr),
    ("AttachStdin", encOptBool c.attach_stdin),
    ("AttachStdout", encOptBool c.attach_stdout),
    ("OpenStdin", encOptBool c.open_stdin),
    ("HostConfig", encOptHostConfig c.host_config)]

/-- JSON decoding inverse of `encodeContainerSpec`. -/
def decodeContainerSpec : Json → Option ContainerSpec
  | .obj [("Image", i), ("Tty", t), ("Hostname", hn), ("Env", e),
      ("Labels", l), ("Cmd", cm), ("AttachStderr", ae), ("AttachStdin", ai),
      ("AttachStdout", ao), ("OpenStdin", o), ("HostConfig", hc)] =>
    match decOptStr i, decOptBool t, decOptStr hn, decOptStrList e,
      decOptLabels l, decOptStrList cm with
    | some i', some t', some hn', some e', some l', some cm' =>
      match decOptBool ae, decOptBool ai, decOptBool ao, decOptBool o,
        decOptHostConfig hc with
      | some ae', some ai', some ao', some o', some hc' =>
        some { image := i'
               tty := t'
               hostname := hn'
               env := e'
               labels := l'
               cmd := cm'
               attach_stderr := ae'
               attach_stdin := ai'
               attach_stdout := ao'
               open_stdin := o'
               host_config := hc' }
      | _, _, _, _, _ => none
    | _, _, _, _, _, _ => none
  | _ => none

/-! ## Cargo spec payloads (nanocl_stubs `cargo_spec.rs`) -/

/-- `CargoSpecPartial`: the partial form used to create a cargo. Field
declaration order follows the stub; the optional fields carry
`skip_serializing_if = "Option::is_none"`. -/
structure CargoSpecPartial where
  name : String
  metadata : Option Json := none
  init_container : Option ContainerSpec := none
  secrets : Option (List String) := none
  container : ContainerSpec
  replication : Option ReplicationMode := none
  deriving Repr

/-- The PascalCase wire keys of `CargoSpecPartial`
(`deny_unknown_fields` rejects anything else). -/
def cargoSpecPartialKeys : List String :=
  ["Name", "Metadata", "InitContainer", "Secrets", "Container", "Replication"]

/-- serde encoding of `CargoSpecPartial`: PascalCase keys in declaration
order, optional fields skipped when `none`. -/
def encodeCargoSpecPartial (p : CargoSpecPartial) : Json :=
  .obj (("Name", .str p.name) ::
    (optField "Metadata" id p.metadata ++
      optField "InitContainer" encodeContainerSpec p.init_container ++
      optField "Secrets" encStrList p.secrets ++
      [("Container", encodeContainerSpec p.container)] ++
      optField "Replication" encodeReplicationMode p.replication))

/-- serde decoding of `CargoSpecPartial`: required `Name` and `Container`,
optional `Metadata` (kept as a raw JSON value), `InitContainer`, `Secrets`
and `Replication`; unknown keys are rejected (`deny_unknown_fields`). -/
def decodeCargoSpecPartial : Json → Option CargoSpecPartial
  | .obj fields =>
    if fields.all (fun kv => cargoSpecPartialKeys.contains kv.1) then
      match getField fields "Name", getField fields "Container" with
      | some (.str name), some cjson =>
        match decodeContainerSpec cjson with
        | some container =>
          match
            (match getField fields "InitContainer" with
             | none => some none
             | some j => (decodeContainerSpec j).map some),
            (match getField fields "Secrets" with
             | none => some none
             | some j => (decStrList j).map some),
            (match getField fields "Replication" with
             | none => some none
             | some j => (decodeReplicationMode j).map some)
          with
          | some ic, some sec, some rep =>
            some { name := name
                   metadata := getField fields "Metadata"
                   init_container := ic
                   secrets := sec
                   container := container
                   replication := rep }
          | _, _, _ => none
        | none => none
      | _, _ => none
    else
      none
  | _ => none

/-! ## Spec rows (`SpecDb`, repositories/spec.rs) -/

/-- A row of the `specs` table. The UUID primary key is modelled as a
string and `created_at` as an integer timestamp. -/
structure SpecDb where
  key : String
  created_at : Int
  kind_name : String
  kind_key : String
  version : String
  data : Json
  metadata : Option Json
  deriving Repr

/-- `CargoSpec`: the full cargo spec reconstructed from a `Spec` row. -/
structure CargoSpec where
  key : String
  cargo_key : String
  version : String
  created_at : Int
  name : String
  metadata : Option Json
  init_container : Option ContainerSpec
  secrets : Option (List String)
  container : ContainerSpec
  replication : Option ReplicationMode
  deriving Repr

/-- `SpecDb::try_from_cargo_partial` (repositories/spec.rs lines 108-122).
The fresh UUID (`uuid::Uuid::new_v4()`) and the current time
(`chrono::Utc::now()`) are nondeterministic inputs, passed explicitly. -/
def try_from_cargo_partial (fresh_key : String) (now : Int)
    (key version : String) (item : CargoSpecPartial) : SpecDb :=
  { key := fresh_key
    created_at := now
    kind_name := "Cargo"
    kind_key := key
    version := version
    data := encodeCargoSpecPartial item
    metadata := item.metadata }

/-- `SpecDb::try_to_cargo_spec` (repositories/spec.rs lines 140-157):
deserialises `data` back to a `CargoSpecPartial` and rebuilds the full
`CargoSpec` from the row columns plus the payload fields. -/
def SpecDb.try_to_cargo_spec (s : SpecDb) : Option CargoSpec :=
  match decodeCargoSpecPartial s.data with
  | none => none
  | some p =>
    some { key := s.key
           cargo_key := s.kind_key
           version := s.version
           created_at := s.created_at
           name := p.name
           metadata := s.metadata
           init_container := p.init_container
           secrets := p.secrets
           container := p.container
           replication := p.replication }

/-! ## State pipeline (utils/state.rs) -/

/-- Modelled from the spec: `utils::key::gen_key` (utils/key.rs is not in
the tree). Spec §3: a cargo key is `"<name>.<namespace>"`. -/
def gen_key (nsp name : String) : String :=
  name ++ "." ++ nsp

/-- Modelled from the spec: nanocl_stubs `ResourcePartial` (the stub file
is not in the tree) — the partial form of a resource: its name, kind, raw
spec data and optional metadata. Only `name` is consulted by the
pipeline. -/
structure ResourcePartial where
  name : String
  kind : String := ""
  data : Json := .null
  metadata : Option Json := none
  deriving Repr

/-- `StateStream`: one progress message of the apply/revert stream,
serialised as `{Msg:"…"}` or `{Error:"…"}`. -/
inductive StateStream
  | msg (m : String)
  | error (e : String)
  deriving DecidableEq, Repr

/-- An observable effect of the state pipeline: a progress message sent on
the channel, a namespace creation, or an operation issued against an
object. Event emissions performed on detached `rt::spawn` tasks
(`CargoPatched`, `CargoStarted`, `CargoDeleted`, `ResourcePatched`,
`ResourceDeleted`) run concurrently with the pipeline and are not part of
its sequential trace. -/
inductive PipeEvent
  | sent (s : StateStream)
  | nsCreate (nsp : String)
  | cargoApply (nsp name : String)
  | cargoStart (key : String)
  | resourceApply (name : String)
  | cargoDelete (key : String)
  | resourceDelete (name : String)
  deriving DecidableEq, Repr

/-- One iteration of the `FuturesUnordered` body of `create_cargoes`
(state.rs lines 34-86): announce, issue `create_or_put` (`createErr` is the
outcome per cargo name), publish `Error` and stop this item on failure,
otherwise announce creation, issue `start` and likewise publish its
outcome. -/
def create_cargo_item (nsp : String) (createErr startErr : String → Option String)
    (cargo : CargoSpecPartial) : List PipeEvent :=
  [.sent (.msg s!"Creating Cargo {cargo.name}"), .cargoApply nsp cargo.name] ++
    match createErr cargo.name with
    | some e => [.sent (.error e)]
    | none =>
      [.sent (.msg s!"Created Cargo {cargo.name}"),
        .cargoStart (gen_key nsp cargo.name)] ++
        match startErr cargo.name with
        | some e => [.sent (.error e)]
        | none => [.sent (.msg s!"Started Cargo {cargo.name}")]

/-- `create_cargoes` (state.rs lines 21-90): the count header followed by
the per-cargo items. The items are driven as a `FuturesUnordered` batch;
their effects are modelled in list order, and no item aborts the batch. -/
def create_cargoes (nsp : String) (data : List CargoSpecPartial)
    (createErr startErr : String → Option String) : List PipeEvent :=
  .sent (.msg s!"Creating {data.length} cargoes in namespace: {nsp}") ::
    (data.map (create_cargo_item nsp createErr startErr)).flatten

/-- One iteration of the `FuturesUnordered` body of `create_resources`
(state.rs lines 103-130). -/
def create_resource_item (resErr : String → Option String)
    (resource : ResourcePartial) : List PipeEvent :=
  [.sent (.msg s!"Creating Resource {resource.name}"),
    .resourceApply resource.name] ++
    match resErr resource.name with
    | some e => [.sent (.error e)]
    | none => [.sent (.msg s!"Created Resource {resource.name}")]

/-- `create_resources` (state.rs lines 92-134). -/
def create_resources (data : List ResourcePartial)
    (resErr : String → Option String) : List PipeEvent :=
  .sent (.msg s!"Creating {data.length} resources") ::
    (data.map (create_resource_item resErr)).flatten

/-- `StateDeployment` (nanocl_stubs, modelled from the spec shape
`Deployment{namespace?, cargoes?, vms?, resources?, jobs?}`; `nsp` models
the `namespace` field). `apply_deployment`/`revert_deployment` consult only
`nsp`, `cargoes` and `resources`. -/
structure StateDeployment where
  nsp : Option String := none
  cargoes : Option (List CargoSpecPartial) := none
  vms : Option (List Json) := none
  resources : Option (List ResourcePartial) := none
  jobs : Option (List Json) := none
  deriving Repr

/-- `StateCargo` (nanocl_stubs, modelled from the spec shape
`Cargo{namespace?, cargoes}`). -/
structure StateCargo where
  nsp : Option String := none
  cargoes : List CargoSpecPartial
  deriving Repr

/-- `StateResources` (nanocl_stubs, modelled from the spec shape
`Resource{resources}`). -/
structure StateResources where
  resources : List ResourcePartial
  deriving Repr

/-- `apply_deployment` (state.rs lines 185-213): resolve the namespace
(creating it when given — `nsErr` is that outcome, a failure propagates
with `?`), then run `create_cargoes` on the `cargoes` list when present,
then `create_resources` on the `resources` list when present. -/
def apply_deployment (data : StateDeployment)
    (nsErr : String → Option String)
    (createErr startErr resErr : String → Option String) :
    Except String Unit × List PipeEvent :=
  let nsp := data.nsp.getD "global"
  let body :=
    (match data.cargoes with
     | some cargoes => create_cargoes nsp cargoes createErr startErr
     | none => []) ++
      (match data.resources with
       | some resources => create_resources resources resErr
       | none => [])
  match data.nsp with
  | some n =>
    match nsErr n with
    | some e => (.error e, [.nsCreate n])
    | none => (.ok (), .nsCreate n :: body)
  | none => (.ok (), body)

/-- The `for cargo in cargoes` loop of `revert_deployment` (state.rs lines
275-326): look the cargo up by its generated key (`present`); on a failed
lookup publish the `Skipping … [NOT FOUND]` message and continue; otherwise
publish `Deleting`, issue the delete (`delErr` is its outcome — a failure
propagates with `?`, aborting the loop), and publish `Deleted`. -/
def revert_cargoes_loop (nsp : String) (present : String → Bool)
    (delErr : String → Option String) :
    List CargoSpecPartial → Except String Unit × List PipeEvent
  | [] => (.ok (), [])
  | c :: rest =>
    let key := gen_key nsp c.name
    if present key then
      match delErr key with
      | some e =>
        (.error e, [.sent (.msg s!"Deleting Cargo {c.name}"), .cargoDelete key])
      | none =>
        let (r, t) := revert_cargoes_loop nsp present delErr rest
        (r, .sent (.msg s!"Deleting Cargo {c.name}") :: .cargoDelete key ::
          .sent (.msg s!"Deleted Cargo {c.name}") :: t)
    else
      let (r, t) := revert_cargoes_loop nsp present delErr rest
      (r, .sent (.msg s!"Skipping Cargo {c.name} [NOT FOUND]") :: t)

/-- The `for resource in resources` loop of `revert_deployment` (state.rs
lines 341-389): publish `Deleting` before the lookup; on a failed lookup
publish `Skipping … [NOT FOUND]` and continue; otherwise issue the delete
(a failure propagates with `?`) and publish `Deleted`. -/
def revert_resources_loop (present : String → Bool)
    (delErr : String → Option String) :
    List ResourcePartial → Except String Unit × List PipeEvent
  | [] => (.ok (), [])
  | r :: rest =>
    if present r.name then
      match delErr r.name with
      | some e =>
        (.error e, [.sent (.msg s!"Deleting Resource {r.name}"),
          .resourceDelete r.name])
      | none =>
        let (res, t) := revert_resources_loop present delErr rest
        (res, .sent (.msg s!"Deleting Resource {r.name}") ::
          .resourceDelete r.name ::
          .sent (.msg s!"Deleted Resource {r.name}") :: t)
    else
      let (res, t) := revert_resources_loop present delErr rest
      (res, .sent (.msg s!"Deleting Resource {r.name}") ::
        .sent (.msg s!"Skipping Resource {r.name} [NOT FOUND]") :: t)

/-- `revert_deployment` (state.rs lines 247-394): the cargo count header
and cargo loop, then — only when the cargo loop did not fail — the
resource count header and resource loop. Channel sends are modelled as
succeeding (the receiver is alive). -/
def revert_deployment (data : StateDeployment)
    (cargoPresent resourcePresent : String → Bool)
    (cargoDelErr resourceDelErr : String → Option String) :
    Except String Unit × List PipeEvent :=
  let nsp := data.nsp.getD "global"
  let (rc, tc) :=
    match data.cargoes with
    | none => ((Except.ok () : Except String Unit), ([] : List PipeEvent))
    | some cargoes =>
      let (r, t) := revert_cargoes_loop nsp cargoPresent cargoDelErr cargoes
      (r, .sent (.msg s!"Deleting {cargoes.length} cargoes in namespace {nsp}")
        :: t)
  match rc with
  | .error e => (.error e, tc)
  | .ok () =>
    match data.resources with
    | none => (.ok (), tc)
    | some resources =>
      let (r, t) := revert_resources_loop resourcePresent resourceDelErr
        resources
      (r, tc ++ .sent (.msg s!"Deleting {resources.length} resources") :: t)

/-! ## `parse_state` (state.rs lines 145-183) -/

/-- The error type used by the pipeline (`HttpError { status, msg }`). -/
structure HttpError where
  status : Nat
  msg : String
  deriving DecidableEq, Repr

/-- Modelled from the spec: nanocl_stubs `StateMeta` (the stub file is not
in the tree) — the discriminator header of a state document, carrying the
required `Kind` field (the wire `ApiVersion` field is not consulted by
`parse_state`'s dispatch and is not modelled). -/
structure StateMeta where
  kind : String
  deriving DecidableEq, Repr

/-- Decoding of `StateMeta` from a state document: the `Kind` key must be
present and be a string. -/
def decodeStateMeta : Json → Option StateMeta
  | .obj fields =>
    match getField fields "Kind" with
    | some (.str kind) => some { kind := kind }
    | _ => none
  | _ => none

/-- Decoding of a JSON array of cargo partials. -/
def decodeCargoList : Json → Option (List CargoSpecPartial)
  | .arr elems =>
    elems.foldr
      (fun e acc =>
        match decodeCargoSpecPartial e, acc with
        | some c, some cs => some (c :: cs)
        | _, _ => none)
      (some [])
  | _ => none

/-- The PascalCase wire keys of `ResourcePartial`. -/
def resourcePartialKeys : List String :=
  ["Name", "Kind", "Data", "Metadata"]

/-- Modelled from the spec: serde decoding of a `ResourcePartial` — required
`Name` and `Kind` strings, required raw `Data`, optional raw `Metadata`;
unknown keys are rejected. -/
def decodeResourcePartial : Json → Option ResourcePartial
  | .obj fields =>
    if fields.all (fun kv => resourcePartialKeys.contains kv.1) then
      match getField fields "Name", getField fields "Kind",
        getField fields "Data" with
      | some (.str name), some (.str kind), some data =>
        some { name := name
               kind := kind
               data := data
               metadata := getField fields "Metadata" }
      | _, _, _ => none
    else
      none
  | _ => none

/-- Decoding of a JSON array of resource partials. -/
def decodeResourceList : Json → Option (List ResourcePartial)
  | .arr elems =>
    elems.foldr
      (fun e acc =>
        match decodeResourcePartial e, acc with
        | some r, some rs => some (r :: rs)
        | _, _ => none)
      (some [])
  | _ => none

/-- Decoding of a raw JSON array (the `Vms`/`Jobs` lists, whose element
shapes the pipeline under scrutiny never consults). -/
def decodeJsonList : Json → Option (List Json)
  | .arr elems => some elems
  | _ => none

/-- An optional field decoded by `dec` when present: absent maps to `none`,
present-but-undecodable fails. -/
def decOptWith (dec : Json → Option α) : Option Json → Option (Option α)
  | none => some none
  | some j =>
    match dec j with
    | some a => some (some a)
    | none => none

/-- Decoding of the optional `Namespace` string field. -/
def decNamespaceField : Option Json → Option (Option String)
  | none => some none
  | some (.str s) => some (some s)
  | some _ => none

/-- The wire keys a `Deployment`-shaped document may carry. -/
def stateDeploymentKeys : List String :=
  ["ApiVersion", "Kind", "Namespace", "Cargoes", "Vms", "Resources", "Jobs"]

/-- Modelled from the spec: serde decoding of `StateDeployment`
(`Deployment{namespace?, cargoes?, vms?, resources?, jobs?}`); unknown keys
fail the parse. -/
def decodeStateDeployment : Json → Option StateDeployment
  | .obj fields =>
    if fields.all (fun kv => stateDeploymentKeys.contains kv.1) then
      match decNamespaceField (getField fields "Namespace"),
        decOptWith decodeCargoList (getField fields "Cargoes"),
        decOptWith decodeJsonList (getField fields "Vms"),
        decOptWith decodeResourceList (getField fields "Resources"),
        decOptWith decodeJsonList (getField fields "Jobs") with
      | some nsp, some cargoes, some vms, some resources, some jobs =>
        some { nsp := nsp
               cargoes := cargoes
               vms := vms
               resources := resources
               jobs := jobs }
      | _, _, _, _, _ => none
    else
      none
  | _ => none

/-- The wire keys a `Cargo`-shaped document may carry. -/
def stateCargoKeys : List String :=
  ["ApiVersion", "Kind", "Namespace", "Cargoes"]

/-- Modelled from the spec: serde decoding of `StateCargo`
(`Cargo{namespace?, cargoes}` — the cargo list is required). -/
def decodeStateCargo : Json → Option StateCargo
  | .obj fields =>
    if fields.all (fun kv => stateCargoKeys.contains kv.1) then
      match decNamespaceField (getField fields "Namespace"),
        getField fields "Cargoes" with
      | some nsp, some cj =>
        match decodeCargoList cj with
        | some cargoes => some { nsp := nsp, cargoes := cargoes }
        | none => none
      | _, _ => none
    else
      none
  | _ => none

/-- The wire keys a `Resource`-shaped document may carry. -/
def stateResourcesKeys : List String :=
  ["ApiVersion", "Kind", "Resources"]

/-- Modelled from the spec: serde decoding of `StateResources`
(`Resource{resources}` — the resource list is required). -/
def decodeStateResources : Json → Option StateResources
  | .obj fields =>
    if fields.all (fun kv => stateResourcesKeys.contains kv.1) then
      match getField fields "Resources" with
      | some rj =>
        match decodeResourceList rj with
        | some resources => some { resources := resources }
        | none => none
      | none => none
    else
      none
  | _ => none

/-- `StateData`: the parsed state document variants produced by
`parse_state` — `Deployment`, `Cargo` and `Resource`. -/
inductive StateData
  | deployment (d : StateDeployment)
  | cargo (c : StateCargo)
  | resource (r : StateResources)
  deriving Repr

/-- `parse_state` (state.rs lines 145-183): decode the `StateMeta` header
(400 on failure), dispatch on `meta.kind` to the `Deployment`, `Cargo` or
`Resource` payload shape (400 on a payload decode failure), and reject any
other kind with a 400 `"unknown type"` error. -/
def parse_state (data : Json) : Except HttpError StateData :=
  match decodeStateMeta data with
  | none => .error { status := 400, msg := "unable to serialize payload" }
  | some meta =>
    match meta.kind with
    | "Deployment" =>
      match decodeStateDeployment data with
      | some d => .ok (.deployment d)
      | none => .error { status := 400, msg := "unable to serialize payload" }
    | "Cargo" =>
      match decodeStateCargo data with
      | some c => .ok (.cargo c)
      | none => .error { status := 400, msg := "unable to serialize payload" }
    | "Resource" =>
      match decodeStateResources data with
      | some r => .ok (.resource r)
      | none => .error { status := 400, msg := "unable to serialize payload" }
    | _ => .error { status := 400, msg := "unknown type" }

/-! ## VM instance creation (utils/vm.rs lines 70-170) -/

/-- nanocl_stubs `VmHostConfig`, restricted to the fields `create_instance`
consults: `cpu`/`memory` (u64), and the optional `kvm`, `runtime`,
`net_iface`, `link_net_iface`, `runtime_network`. -/
structure VmHostConfig where
  cpu : Nat := 0
  memory : Nat := 0
  kvm : Option Bool := none
  runtime : Option String := none
  net_iface : Option String := none
  link_net_iface : Option String := none
  runtime_network : Option String := none
  deriving DecidableEq, Repr

/-- The fields of a resolved `VmSpec` consulted by `create_instance`. -/
structure VmSpecData where
  vm_key : String
  hostname : Option String := none
  user : Option String := none
  password : Option String := none
  ssh_key : Option String := none
  host_config : VmHostConfig := {}
  deriving DecidableEq, Repr

/-- The fields of a `Vm` row consulted by `create_instance`: its resolved
spec and its namespace. -/
structure Vm where
  spec : VmSpecData
  namespace_name : String
  deriving DecidableEq, Repr

/-- The fields of a `VmImageDb` row consulted by `create_instance`. -/
structure VmImageDb where
  path : String
  deriving DecidableEq, Repr

/-- `create_instance` (utils/vm.rs lines 70-170): derive the container
configuration and the container name (`utils::process::create` receives
them together with kind `"vm"` and the vm key). `state_dir` is
`state.config.state_dir`. -/
def create_instance (state_dir : String) (vm : Vm) (image : VmImageDb)
    (disable_keygen : Bool) : ContainerSpec × String :=
  let vmimagespath := s!"{state_dir}/vms/images"
  let labels := [("io.nanocl.v", vm.spec.vm_key),
    ("io.nanocl.n", vm.namespace_name)]
  let host_config := vm.spec.host_config
  let kvm := host_config.kvm.getD false
  let devices := [({ path_on_host := some "/dev/net/tun"
                     path_in_container := some "/dev/net/tun"
                     cgroup_permissions := some "rwm" } : DeviceMapping)]
  let devices :=
    if kvm then
      devices ++ [{ path_on_host := some "/dev/kvm"
                    path_in_container := some "/dev/kvm"
                    cgroup_permissions := some "rwm" }]
    else devices
  let args := ["-hda", image.path, "--nographic"]
  let args := if kvm then args ++ ["-accel", "kvm"] else args
  let cpu := host_config.cpu
  let cpu := if cpu > 0 then toString cpu else "1"
  let args := args ++ ["-smp", cpu]
  let memory := host_config.memory
  let memory := if memory > 0 then s!"{memory}M" else "512M"
  let args := args ++ ["-m", memory]
  let net_iface := host_config.net_iface.getD "ens3"
  let link_net_iface := host_config.link_net_iface.getD "eth0"
  let envs := [s!"DEFAULT_INTERFACE={link_net_iface}",
    s!"FROM_NETWORK={net_iface}",
    s!"DELETE_SSH_KEY={disable_keygen}"]
  let envs := envs ++
    (match vm.spec.user with
     | some user => [s!"USER={user}"]
     | none => []) ++
    (match vm.spec.password with
     | some password => [s!"PASSWORD={password}"]
     | none => []) ++
    (match vm.spec.ssh_key with
     | some ssh_key => [s!"SSH_KEY={ssh_key}"]
     | none => [])
  let img :=
    match host_config.runtime with
    | some runtime => runtime
    | none => "ghcr.io/next-hat/nanocl-qemu:8.0.2.0"
  let spec : ContainerSpec :=
    { image := some img
      tty := some true
      hostname := vm.spec.hostname
      env := some envs
      labels := some labels
      cmd := some args
      attach_stderr := some true
      attach_stdin := some true
      attach_stdout := some true
      open_stdin := some true
      host_config := some
        { network_mode := some (host_config.runtime_network.getD
            vm.namespace_name)
          binds := some [s!"{vmimagespath}:{vmimagespath}"]
          devices := some devices
          cap_add := some ["NET_ADMIN"] } }
  (spec, s!"{vm.spec.vm_key}.v")

/-! ## Node registry (repositories/node.rs lines 71-91) -/

/-- A row of the `nodes` table. -/
structure NodeDb where
  name : String
  ip_address : String
  created_at : Int
  deriving DecidableEq, Repr

/-- The `nodes` table, a list of rows keyed by `name`. -/
abbrev NodeStore := List NodeDb

/-- `NodeDb::read_by_pk`: the unique row with the given name, or a
not-found error. -/
def NodeStore.read_by_pk (store : NodeStore) (pk : String) :
    Except String NodeDb :=
  match List.find? (fun n => n.name = pk) store with
  | some n => .ok n
  | none => .error "nodes: item not found"

/-- `NodeDb::create_from`: insert the row and return it. -/
def NodeStore.create_from (store : NodeStore) (node : NodeDb) :
    NodeStore × NodeDb :=
  (store ++ [node], node)

/-- `NodeDb::create_if_not_exists` (node.rs lines 72-80): read by primary
key; on a miss insert the given row, on a hit return the existing row
untouched. -/
def NodeStore.create_if_not_exists (store : NodeStore) (node : NodeDb) :
    NodeStore × NodeDb :=
  match store.read_by_pk node.name with
  | .error _ => store.create_from node
  | .ok existing => (store, existing)

/-- `NodeDb::register` (node.rs lines 82-90): build the local daemon's row
from the configured hostname and gateway and run `create_if_not_exists`. -/
def NodeStore.register (store : NodeStore) (hostname gateway : String)
    (now : Int) : NodeStore × NodeDb :=
  store.create_if_not_exists
    { name := hostname, ip_address := gateway, created_at := now }

/-! ## Concrete fixtures

Small concrete rows and documents on which the embedded operations are
evaluated. -/

/-- A process row whose container-inspect state reports not running. -/
def procStopped : Process :=
  { key := "p1"
    data := { state := some { running := some false }, id := some "c1" } }

/-- A process row whose container-inspect state reports running. -/
def procRunning : Process :=
  { key := "p2"
    data := { state := some { running := some true }, id := some "c2" } }

/-- A second running process row. -/
def procRunning2 : Process :=
  { key := "p3"
    data := { state := some { running := some true }, id := some "c3" } }

/-- A minimal cargo partial named `a`. -/
def cargoA : CargoSpecPartial := { name := "a", container := {} }

/-- A minimal cargo partial named `b`. -/
def cargoB : CargoSpecPartial := { name := "b", container := {} }

/-- A minimal resource partial named `r`. -/
def resourceR : ResourcePartial := { name := "r" }

/-- The deployment of spec scenario S5: cargoes `a` and `b` in namespace
`demo`. -/
def deploymentAB : StateDeployment :=
  { nsp := some "demo", cargoes := some [cargoA, cargoB] }

/-- A deployment carrying one cargo and one resource. -/
def deploymentCR : StateDeployment :=
  { cargoes := some [{ name := "c", container := {} }]
    resources := some [resourceR] }

/-- A state document with kind discriminator `Vm`. -/
def vmKindDoc : Json :=
  .obj [("Kind", .str "Vm"), ("Namespace", .str "global"), ("Vms", .arr [])]

/-- A state document with kind discriminator `Job`. -/
def jobKindDoc : Json :=
  .obj [("Kind", .str "Job"), ("Jobs", .arr [])]

/-- A status row with `actual = Running`. -/
def statusRunning : ObjPsStatus :=
  { wanted := "Running", actual := "Running"
    prev_wanted := "Created", prev_actual := "Created" }

/-- A status row with `actual = Stopped`. -/
def statusStopped : ObjPsStatus :=
  { wanted := "Stopped", actual := "Stopped"
    prev_wanted := "Running", prev_actual := "Running" }

/-- The namespace a deployment document resolves to: its `namespace` field,
or `"global"` when unset. -/
def StateDeployment.nspOrGlobal (d : StateDeployment) : String :=
  d.nsp.getD "global"

/-! # Theorems -/

/-! ## The stop loop (claim C1) -/

/-- Closed form of the stop loop when every runtime stop succeeds: either
every process is running and the loop completes having stopped each one in
order, or the loop stops early at the first non-running process, having
stopped exactly the running prefix. -/
theorem stop_loop_all_ok (docker : String → Except String Unit)
    (hd : ∀ i, docker i = .ok ()) (ps : List Process) :
    stop_loop docker ps =
      if ps.all Process.isRunning then
        (.completed, ps.map (fun p => .stopContainer p.containerId))
      else
        (.earlyOk, (ps.takeWhile Process.isRunning).map
          (fun p => .stopContainer p.containerId)) := by
  induction ps with
  | nil => simp [stop_loop]
  | cons p rest ih =>
    by_cases hp : p.isRunning
    · simp [stop_loop, hp, hd, ih]
      split_ifs with hr <;> rfl
    · simp [stop_loop, hp]

/-- C1 (amended): `stop_process_by_kind_key` walks the parent's `Process`
rows in order. At the first row whose runtime state reports not running, it
returns success immediately — without stopping the remaining processes and
without emitting `Stopping`. Only when every process is running does it
stop each one and emit `Stopping` exactly once after the loop. (Runtime
stop calls are assumed to succeed.) -/
theorem stop_process_semantics (docker : String → Except String Unit)
    (hd : ∀ i, docker i = .ok ()) (ps : List Process) :
    stop_process_by_kind_key docker ps =
      if ps.all Process.isRunning then
        (.ok (), ps.map (fun p => .stopContainer p.containerId) ++
          [.emit .stopping])
      else
        (.ok (), (ps.takeWhile Process.isRunning).map
          (fun p => .stopContainer p.containerId)) := by
  by_cases h : ps.all Process.isRunning <;>
    simp [stop_process_by_kind_key, stop_loop_all_ok docker hd ps, h]

/-- Witness for `stop_process_semantics`: two running processes are both
stopped and `Stopping` is emitted once. -/
theorem stop_process_semantics_witness :
    stop_process_by_kind_key (fun _ => Except.ok ())
        [procRunning, procRunning2] =
      (.ok (), [.stopContainer "c2", .stopContainer "c3", .emit .stopping]) := by
  have h := stop_process_semantics (fun _ => Except.ok ()) (fun _ => rfl)
    [procRunning, procRunning2]
  simpa [procRunning, procRunning2, Process.isRunning, Process.containerId]
    using h

/-- C1 (counterexample to the claim as stated): with a non-running process
listed before a running one, the function returns success having issued no
stop at all — the running process `c2` is never stopped and `Stopping` is
never emitted, contradicting skip-and-continue with a final `Stopping`. -/
theorem stop_process_counterexample :
    stop_process_by_kind_key (fun _ => Except.ok ())
        [procStopped, procRunning] = (.ok (), []) ∧
    StopEffect.stopContainer "c2" ∉
      (stop_process_by_kind_key (fun _ => Except.ok ())
        [procStopped, procRunning]).2 ∧
    StopEffect.emit .stopping ∉
      (stop_process_by_kind_key (fun _ => Except.ok ())
        [procStopped, procRunning]).2 := by
  refine ⟨rfl, ?_, ?_⟩ <;>
    simp [stop_process_by_kind_key, stop_loop, procStopped, procRunning,
      Process.isRunning]

/-! ## Starting an object (claim C2) -/

/-- C2: `start_process_by_kind_key` is a no-op (no status write, no event)
when the current `actual` is already `Running`; otherwise it issues exactly
the status update `(wanted=Running, prev_wanted=old wanted, actual=Starting,
prev_actual=old actual)` followed by the `Starting` event, and applying
that update to the row yields the expected new row. -/
theorem start_process_semantics (s : ObjPsStatus) :
    (s.actual = ObjPsStatusKind.running.toStr →
      start_process_by_kind_key s = []) ∧
    (s.actual ≠ ObjPsStatusKind.running.toStr →
      start_process_by_kind_key s =
        [.updateStatus { wanted := some ObjPsStatusKind.running.toStr
                         prev_wanted := some s.wanted
                         actual := some ObjPsStatusKind.starting.toStr
                         prev_actual := some s.actual },
          .emit .starting]) ∧
    s.applyUpdate { wanted := some ObjPsStatusKind.running.toStr
                    prev_wanted := some s.wanted
                    actual := some ObjPsStatusKind.starting.toStr
                    prev_actual := some s.actual } =
      { wanted := ObjPsStatusKind.running.toStr
        actual := ObjPsStatusKind.starting.toStr
        prev_wanted := s.wanted
        prev_actual := s.actual } := by
  refine ⟨fun h => ?_, fun h => ?_, rfl⟩ <;>
    simp [start_process_by_kind_key, h]

/-- Witness for `start_process_semantics`: a running status row is left
untouched; a stopped one gets the Starting transition. -/
theorem start_process_semantics_witness :
    start_process_by_kind_key statusRunning = [] ∧
    start_process_by_kind_key statusStopped =
      [.updateStatus { wanted := some "Running"
                       prev_wanted := some "Stopped"
                       actual := some "Starting"
                       prev_actual := some "Stopped" },
        .emit .starting] :=
  ⟨(start_process_semantics statusRunning).1 rfl,
    (start_process_semantics statusStopped).2.1 (by decide)⟩

/-! ## Deleting a process (claim C5) -/

/-- C5: `del_process_by_pk` deletes the `Process` row after a successful
runtime removal and also after a runtime 404 server response (idempotent
delete); any other runtime error — a non-404 server response or a
non-server error — is returned and the row is not deleted. -/
theorem del_process_semantics (docker : String → Except DockerErr Unit)
    (pk : String) :
    (docker pk = .ok () →
      del_process_by_pk docker pk =
        (.ok (), [.removeContainer pk, .delProcessRow pk])) ∧
    (∀ m, docker pk = .error (.serverError 404 m) →
      del_process_by_pk docker pk =
        (.ok (), [.removeContainer pk, .delProcessRow pk])) ∧
    (∀ sc m, docker pk = .error (.serverError sc m) → sc ≠ 404 →
      del_process_by_pk docker pk =
        (.error (.serverError sc m), [.removeContainer pk])) ∧
    (∀ m, docker pk = .error (.other m) →
      del_process_by_pk docker pk =
        (.error (.other m), [.removeContainer pk])) := by
  refine ⟨fun h => ?_, fun m h => ?_, fun sc m h hsc => ?_, fun m h => ?_⟩ <;>
    simp [del_process_by_pk, h]
  intro hc
  exact absurd hc hsc

/-- Witness for `del_process_semantics`: a 404 server response still
deletes the row; a 500 server response is propagated without deleting. -/
theorem del_process_semantics_witness :
    del_process_by_pk (fun _ => .error (.serverError 404 "no such container"))
        "c9" = (.ok (), [.removeContainer "c9", .delProcessRow "c9"]) ∧
    del_process_by_pk (fun _ => .error (.serverError 500 "boom")) "c9" =
      (.error (.serverError 500 "boom"), [.removeContainer "c9"]) :=
  ⟨(del_process_semantics _ "c9").2.1 "no such container" rfl,
    (del_process_semantics _ "c9").2.2.1 500 "boom" rfl (by decide)⟩

/-! ## VM container derivation (claim C7) -/

/-- C7: the container configuration derived by `create_instance` carries
the QEMU arguments `-accel kvm` and the `/dev/kvm` device mapping exactly
when `host_config.kvm` unwraps to true; always maps `/dev/net/tun`; uses
`-smp` with `host_config.cpu` (0 mapped to `"1"`) and `-m` with
`host_config.memory` MiB (0 mapped to `"512M"`); defaults the image to the
pinned QEMU runtime tag when `host_config.runtime` is absent; and the
container is named `<vm_key>.v`. -/
theorem create_instance_semantics (state_dir : String) (vm : Vm)
    (image : VmImageDb) (disable_keygen : Bool) :
    ((create_instance state_dir vm image disable_keygen).1).cmd =
      some (["-hda", image.path, "--nographic"] ++
        (if vm.spec.host_config.kvm.getD false then ["-accel", "kvm"]
          else []) ++
        ["-smp",
          if vm.spec.host_config.cpu > 0 then toString vm.spec.host_config.cpu
          else "1",
          "-m",
          if vm.spec.host_config.memory > 0 then
            s!"{vm.spec.host_config.memory}M"
          else "512M"]) ∧
    (((create_instance state_dir vm image disable_keygen).1).host_config.getD
        {}).devices =
      some ([{ path_on_host := some "/dev/net/tun"
               path_in_container := some "/dev/net/tun"
               cgroup_permissions := some "rwm" }] ++
        (if vm.spec.host_config.kvm.getD false then
          [{ path_on_host := some "/dev/kvm"
             path_in_container := some "/dev/kvm"
             cgroup_permissions := some "rwm" }]
        else [])) ∧
    (({ path_on_host := some "/dev/kvm"
        path_in_container := some "/dev/kvm"
        cgroup_permissions := some "rwm" } : DeviceMapping) ∈
        ((((create_instance state_dir vm image disable_keygen).1
          ).host_config.getD {}).devices.getD []) ↔
      vm.spec.host_config.kvm.getD false = true) ∧
    ({ path_on_host := some "/dev/net/tun"
       path_in_container := some "/dev/net/tun"
       cgroup_permissions := some "rwm" } : DeviceMapping) ∈
      ((((create_instance state_dir vm image disable_keygen).1
        ).host_config.getD {}).devices.getD []) ∧
    ((create_instance state_dir vm image disable_keygen).1).image =
      some (vm.spec.host_config.runtime.getD
        "ghcr.io/next-hat/nanocl-qemu:8.0.2.0") ∧
    (create_instance state_dir vm image disable_keygen).2 =
      vm.spec.vm_key ++ ".v" := by
  refine ⟨?_, ?_, ?_, ?_, ?_, rfl⟩
  · cases hkvm : vm.spec.host_config.kvm with
    | none => simp [create_instance, hkvm]
    | some b => cases b <;> simp [create_instance, hkvm]
  · cases hkvm : vm.spec.host_config.kvm with
    | none => simp [create_instance, hkvm]
    | some b => cases b <;> simp [create_instance, hkvm]
  · cases hkvm : vm.spec.host_config.kvm with
    | none => simp [create_instance, hkvm]
    | some b => cases b <;> simp [create_instance, hkvm]
  · cases hkvm : vm.spec.host_config.kvm with
    | none => simp [create_instance, hkvm]
    | some b => cases b <;> simp [create_instance, hkvm]
  · cases hrt : vm.spec.host_config.runtime <;> simp [create_instance, hrt]

/-- Witness for `create_instance_semantics`: concrete VM with no runtime
override gets the pinned QEMU image and the `<vm_key>.v` container name. -/
theorem create_instance_semantics_witness :
    (create_instance "/var/lib/nanocl"
        { spec := { vm_key := "myvm.global" }, namespace_name := "global" }
        { path := "/img.qcow2" } false).1.image =
      some "ghcr.io/next-hat/nanocl-qemu:8.0.2.0" ∧
    (create_instance "/var/lib/nanocl"
        { spec := { vm_key := "myvm.global" }, namespace_name := "global" }
        { path := "/img.qcow2" } false).2 = "myvm.global.v" := by
  have h := create_instance_semantics "/var/lib/nanocl"
    { spec := { vm_key := "myvm.global" }, namespace_name := "global" }
    { path := "/img.qcow2" } false
  exact ⟨by simpa using h.2.2.2.2.1, by simpa using h.2.2.2.2.2⟩

/-! ## Node registration (claim C10) -/

/-- C10: when a node row with the daemon's hostname already exists,
`register` (via `create_if_not_exists`) returns the existing row and
leaves the table unchanged — in particular a different configured gateway
does not update the stored `ip_address`. -/
theorem register_existing_noop (store : NodeStore) (hostname gateway : String)
    (now : Int) (existing : NodeDb)
    (hfound : store.read_by_pk hostname = .ok existing) :
    store.register hostname gateway now = (store, existing) := by
  simp [NodeStore.register, NodeStore.create_if_not_exists, hfound]

/-- Witness for `register_existing_noop`: re-registering `node1` with a
different gateway keeps the stored `ip_address` `10.0.0.1`. -/
theorem register_existing_noop_witness :
    NodeStore.register
        [{ name := "node1", ip_address := "10.0.0.1", created_at := 5 }]
        "node1" "192.168.0.9" 99 =
      ([{ name := "node1", ip_address := "10.0.0.1", created_at := 5 }],
        { name := "node1", ip_address := "10.0.0.1", created_at := 5 }) :=
  register_existing_noop
    [{ name := "node1", ip_address := "10.0.0.1", created_at := 5 }]
    "node1" "192.168.0.9" 99
    { name := "node1", ip_address := "10.0.0.1", created_at := 5 }
    rfl

/-! ## Apply ordering (claim C3) -/

/-- A cargo item of the apply batch emits only progress messages, its own
create-or-update and its own start — never a resource operation. -/
theorem resourceApply_not_mem_create_cargo_item (nsp : String)
    (ce se : String → Option String) (c : CargoSpecPartial) (n : String) :
    PipeEvent.resourceApply n ∉ create_cargo_item nsp ce se c := by
  unfold create_cargo_item
  cases ce c.name <;> cases se c.name <;> simp

/-- No resource create-or-update appears in the `create_cargoes` trace. -/
theorem resourceApply_not_mem_create_cargoes (nsp : String)
    (data : List CargoSpecPartial) (ce se : String → Option String)
    (n : String) :
    PipeEvent.resourceApply n ∉ create_cargoes nsp data ce se := by
  intro hmem
  rcases List.mem_cons.mp hmem with h | h
  · exact PipeEvent.noConfusion h
  · rcases List.mem_flatten.mp h with ⟨l, hl, hel⟩
    rcases List.mem_map.mp hl with ⟨c, _, rfl⟩
    exact resourceApply_not_mem_create_cargo_item nsp ce se c n hel

/-- A resource item of the apply batch never emits a cargo operation. -/
theorem cargoApply_not_mem_create_resource_item
    (re : String → Option String) (r : ResourcePartial) (nsp n : String) :
    PipeEvent.cargoApply nsp n ∉ create_resource_item re r := by
  unfold create_resource_item
  cases re r.name <;> simp

/-- No cargo create-or-update appears in the `create_resources` trace. -/
theorem cargoApply_not_mem_create_resources (data : List ResourcePartial)
    (re : String → Option String) (nsp n : String) :
    PipeEvent.cargoApply nsp n ∉ create_resources data re := by
  intro hmem
  rcases List.mem_cons.mp hmem with h | h
  · exact PipeEvent.noConfusion h
  · rcases List.mem_flatten.mp h with ⟨l, hl, hel⟩
    rcases List.mem_map.mp hl with ⟨r, _, rfl⟩
    exact cargoApply_not_mem_create_resource_item re r nsp n hel

/-- C3 (amended): `apply_deployment` issues every cargo create-or-update
strictly before any resource create-or-update — the declared between-list
order is cargoes before resources, not resources before cargoes. The trace
splits into a prefix free of resource operations followed by a suffix free
of cargo operations. -/
theorem apply_deployment_cargoes_before_resources (data : StateDeployment)
    (nsErr ce se re : String → Option String) :
    ∃ t1 t2,
      (apply_deployment data nsErr ce se re).2 = t1 ++ t2 ∧
      (∀ e ∈ t1, ∀ n, e ≠ PipeEvent.resourceApply n) ∧
      (∀ e ∈ t2, ∀ nsp n, e ≠ PipeEvent.cargoApply nsp n) := by
  have hc : ∀ e ∈ (match data.cargoes with
      | some cargoes => create_cargoes (data.nsp.getD "global") cargoes ce se
      | none => ([] : List PipeEvent)), ∀ n,
      e ≠ PipeEvent.resourceApply n := by
    cases data.cargoes with
    | none => simp
    | some cargoes =>
      intro e he n hne
      rw [hne] at he
      exact resourceApply_not_mem_create_cargoes _ _ _ _ _ he
  have hr : ∀ e ∈ (match data.resources with
      | some resources => create_resources resources re
      | none => ([] : List PipeEvent)), ∀ nsp n,
      e ≠ PipeEvent.cargoApply nsp n := by
    cases data.resources with
    | none => simp
    | some resources =>
      intro e he nsp n hne
      rw [hne] at he
      exact cargoApply_not_mem_create_resources _ _ _ _ he
  cases hns : data.nsp with
  | none =>
    refine ⟨_, _, ?_, hc, hr⟩
    simp [apply_deployment, hns]
  | some nn =>
    cases hne : nsErr nn with
    | some e =>
      refine ⟨[.nsCreate nn], [], ?_, ?_, ?_⟩
      · simp [apply_deployment, hns, hne]
      · intro ev hev n
        rcases List.mem_singleton.mp hev with rfl
        simp
      · simp
    | none =>
      refine ⟨.nsCreate nn :: (match data.cargoes with
        | some cargoes => create_cargoes (data.nsp.getD "global") cargoes ce se
        | none => ([] : List PipeEvent)), _, ?_, ?_, hr⟩
      · simp [apply_deployment, hns, hne]
      · intro ev hev n
        rcases List.mem_cons.mp hev with rfl | hev
        · simp
        · exact hc ev hev n

/-- Witness for `apply_deployment_cargoes_before_resources`: the split
exists for the concrete one-cargo one-resource deployment. -/
theorem apply_deployment_cargoes_before_resources_witness :
    ∃ t1 t2,
      (apply_deployment deploymentCR (fun _ => none) (fun _ => none)
        (fun _ => none) (fun _ => none)).2 = t1 ++ t2 ∧
      (∀ e ∈ t1, ∀ n, e ≠ PipeEvent.resourceApply n) ∧
      (∀ e ∈ t2, ∀ nsp n, e ≠ PipeEvent.cargoApply nsp n) :=
  apply_deployment_cargoes_before_resources deploymentCR (fun _ => none)
    (fun _ => none) (fun _ => none) (fun _ => none)

/-- C3 (counterexample to the claim as stated): applying a deployment
holding one cargo `c` and one resource `r`, the cargo create-or-update is
issued at position 2 of the trace while the resource create-or-update only
appears at position 8 — the resources list is not applied before the
cargoes list. -/
theorem apply_order_counterexample :
    (apply_deployment deploymentCR (fun _ => none) (fun _ => none)
        (fun _ => none) (fun _ => none)).2[2]? =
      some (.cargoApply "global" "c") ∧
    (apply_deployment deploymentCR (fun _ => none) (fun _ => none)
        (fun _ => none) (fun _ => none)).2[8]? =
      some (.resourceApply "r") := ⟨rfl, rfl⟩

/-! ## Pipeline error handling (claim C4) -/

/-- C4 (amended): within apply, a constituent whose create-or-update or
start fails has the failure published as an `Error` message and the batch
continues — the traces of the preceding and following items are unchanged.
Within revert, a failing cargo delete aborts the loop with the error: the
remaining constituents are not processed and no `Error` message is
published. -/
theorem state_pipeline_error_semantics
    (nsp : String) (ce se re : String → Option String)
    (pre post : List CargoSpecPartial) (c : CargoSpecPartial)
    (rpre rpost : List ResourcePartial) (r : ResourcePartial)
    (present : String → Bool) (delErr : String → Option String)
    (rest : List CargoSpecPartial) (e : String) :
    (ce c.name = some e →
      create_cargoes nsp (pre ++ c :: post) ce se =
        .sent (.msg
          s!"Creating {(pre ++ c :: post).length} cargoes in namespace: {nsp}")
          :: ((pre.map (create_cargo_item nsp ce se)).flatten ++
            ([.sent (.msg s!"Creating Cargo {c.name}"),
              .cargoApply nsp c.name, .sent (.error e)] ++
              (post.map (create_cargo_item nsp ce se)).flatten))) ∧
    (ce c.name = none → se c.name = some e →
      create_cargoes nsp (pre ++ c :: post) ce se =
        .sent (.msg
          s!"Creating {(pre ++ c :: post).length} cargoes in namespace: {nsp}")
          :: ((pre.map (create_cargo_item nsp ce se)).flatten ++
            ([.sent (.msg s!"Creating Cargo {c.name}"),
              .cargoApply nsp c.name,
              .sent (.msg s!"Created Cargo {c.name}"),
              .cargoStart (gen_key nsp c.name), .sent (.error e)] ++
              (post.map (create_cargo_item nsp ce se)).flatten))) ∧
    (re r.name = some e →
      create_resources (rpre ++ r :: rpost) re =
        .sent (.msg s!"Creating {(rpre ++ r :: rpost).length} resources") ::
          ((rpre.map (create_resource_item re)).flatten ++
            ([.sent (.msg s!"Creating Resource {r.name}"),
              .resourceApply r.name, .sent (.error e)] ++
              (rpost.map (create_resource_item re)).flatten))) ∧
    (present (gen_key nsp c.name) = true →
      delErr (gen_key nsp c.name) = some e →
      revert_cargoes_loop nsp present delErr (c :: rest) =
        (.error e, [.sent (.msg s!"Deleting Cargo {c.name}"),
          .cargoDelete (gen_key nsp c.name)])) := by
  refine ⟨fun h1 => ?_, fun h1 h2 => ?_, fun h1 => ?_, fun h1 h2 => ?_⟩
  · simp [create_cargoes, create_cargo_item, h1]
  · simp [create_cargoes, create_cargo_item, h1, h2]
  · simp [create_resources, create_resource_item, h1]
  · simp [revert_cargoes_loop, h1, h2]

/-- Witness for `state_pipeline_error_semantics`: a failing create of cargo
`a` leaves the full item trace of cargo `b` intact, while a failing delete
in revert aborts before cargo `b` and publishes no `Error` message. -/
theorem state_pipeline_error_semantics_witness :
    create_cargoes "demo" [cargoA, cargoB]
        (fun n => if n = "a" then some "boom" else none) (fun _ => none) =
      [.sent (.msg "Creating 2 cargoes in namespace: demo"),
        .sent (.msg "Creating Cargo a"), .cargoApply "demo" "a",
        .sent (.error "boom"),
        .sent (.msg "Creating Cargo b"), .cargoApply "demo" "b",
        .sent (.msg "Created Cargo b"), .cargoStart "b.demo",
        .sent (.msg "Started Cargo b")] ∧
    revert_cargoes_loop "demo" (fun _ => true) (fun _ => some "boom")
        [cargoA, cargoB] =
      (.error "boom",
        [.sent (.msg "Deleting Cargo a"), .cargoDelete "a.demo"]) := by
  constructor
  · have h := (state_pipeline_error_semantics "demo"
      (fun n => if n = "a" then some "boom" else none) (fun _ => none)
      (fun _ => none) [] [cargoB] cargoA [] [] resourceR
      (fun _ => true) (fun _ => some "boom") [cargoB] "boom").1 (by simp [cargoA])
    simpa [cargoA, cargoB, create_cargo_item, gen_key] using h
  · have h := (state_pipeline_error_semantics "demo"
      (fun n => if n = "a" then some "boom" else none) (fun _ => none)
      (fun _ => none) [] [cargoB] cargoA [] [] resourceR
      (fun _ => true) (fun _ => some "boom") [cargoB] "boom").2.2.2 rfl rfl
    simpa [cargoA, gen_key] using h

/-- C4 (counterexample to the claim as stated): reverting the two-cargo
deployment when both cargoes are present and the delete of `a` fails, the
pipeline returns the error having published no `Error` message and having
processed nothing of cargo `b`. -/
theorem revert_error_counterexample :
    revert_deployment deploymentAB (fun _ => true) (fun _ => false)
        (fun k => if k = "a.demo" then some "boom" else none)
        (fun _ => none) =
      (.error "boom",
        [.sent (.msg "Deleting 2 cargoes in namespace demo"),
          .sent (.msg "Deleting Cargo a"), .cargoDelete "a.demo"]) ∧
    (∀ m, PipeEvent.sent (.error m) ∉
      (revert_deployment deploymentAB (fun _ => true) (fun _ => false)
        (fun k => if k = "a.demo" then some "boom" else none)
        (fun _ => none)).2) ∧
    PipeEvent.sent (.msg "Deleting Cargo b") ∉
      (revert_deployment deploymentAB (fun _ => true) (fun _ => false)
        (fun k => if k = "a.demo" then some "boom" else none)
        (fun _ => none)).2 ∧
    PipeEvent.cargoDelete "b.demo" ∉
      (revert_deployment deploymentAB (fun _ => true) (fun _ => false)
        (fun k => if k = "a.demo" then some "boom" else none)
        (fun _ => none)).2 := by
  have h : revert_deployment deploymentAB (fun _ => true) (fun _ => false)
      (fun k => if k = "a.demo" then some "boom" else none)
      (fun _ => none) =
      (.error "boom",
        [.sent (.msg "Deleting 2 cargoes in namespace demo"),
          .sent (.msg "Deleting Cargo a"), .cargoDelete "a.demo"]) := rfl
  refine ⟨h, ?_, ?_, ?_⟩ <;> simp [h]

/-! ## Revert lookup semantics (claim C8) -/

/-- With no delete failures the cargo revert loop never errors. -/
theorem revert_cargoes_loop_ok (nsp : String) (present : String → Bool)
    (cs : List CargoSpecPartial) :
    (revert_cargoes_loop nsp present (fun _ => none) cs).1 = .ok () := by
  induction cs with
  | nil => rfl
  | cons c rest ih =>
    by_cases hp : present (gen_key nsp c.name) <;>
      simp [revert_cargoes_loop, hp, ih]

/-- With no delete failures the resource revert loop never errors. -/
theorem revert_resources_loop_ok (present : String → Bool)
    (rs : List ResourcePartial) :
    (revert_resources_loop present (fun _ => none) rs).1 = .ok () := by
  induction rs with
  | nil => rfl
  | cons r rest ih =>
    by_cases hp : present r.name <;>
      simp [revert_resources_loop, hp, ih]

/-- A listed cargo whose lookup misses gets its Skipping message. -/
theorem revert_cargoes_loop_skip_mem (nsp : String) (present : String → Bool)
    (c : CargoSpecPartial) (cs : List CargoSpecPartial) (hc : c ∈ cs)
    (hmiss : present (gen_key nsp c.name) = false) :
    PipeEvent.sent (.msg s!"Skipping Cargo {c.name} [NOT FOUND]") ∈
      (revert_cargoes_loop nsp present (fun _ => none) cs).2 := by
  induction cs with
  | nil => cases hc
  | cons hd rest ih =>
    rcases List.mem_cons.mp hc with rfl | hmem
    · simp [revert_cargoes_loop, hmiss]
    · by_cases hp : present (gen_key nsp hd.name) <;>
        simp [revert_cargoes_loop, hp, ih hmem]

/-- A listed cargo whose lookup hits gets its delete issued. -/
theorem revert_cargoes_loop_delete_mem (nsp : String)
    (present : String → Bool) (c : CargoSpecPartial)
    (cs : List CargoSpecPartial) (hc : c ∈ cs)
    (hhit : present (gen_key nsp c.name) = true) :
    PipeEvent.cargoDelete (gen_key nsp c.name) ∈
      (revert_cargoes_loop nsp present (fun _ => none) cs).2 := by
  induction cs with
  | nil => cases hc
  | cons hd rest ih =>
    rcases List.mem_cons.mp hc with rfl | hmem
    · simp [revert_cargoes_loop, hhit]
    · by_cases hp : present (gen_key nsp hd.name) <;>
        simp [revert_cargoes_loop, hp, ih hmem]

/-- A listed resource whose lookup misses gets its Skipping message. -/
theorem revert_resources_loop_skip_mem (present : String → Bool)
    (r : ResourcePartial) (rs : List ResourcePartial) (hr : r ∈ rs)
    (hmiss : present r.name = false) :
    PipeEvent.sent (.msg s!"Skipping Resource {r.name} [NOT FOUND]") ∈
      (revert_resources_loop present (fun _ => none) rs).2 := by
  induction rs with
  | nil => cases hr
  | cons hd rest ih =>
    rcases List.mem_cons.mp hr with rfl | hmem
    · simp [revert_resources_loop, hmiss]
    · by_cases hp : present hd.name <;>
        simp [revert_resources_loop, hp, ih hmem]

/-- A listed resource whose lookup hits gets its delete issued. -/
theorem revert_resources_loop_delete_mem (present : String → Bool)
    (r : ResourcePartial) (rs : List ResourcePartial) (hr : r ∈ rs)
    (hhit : present r.name = true) :
    PipeEvent.resourceDelete r.name ∈
      (revert_resources_loop present (fun _ => none) rs).2 := by
  induction rs with
  | nil => cases hr
  | cons hd rest ih =>
    rcases List.mem_cons.mp hr with rfl | hmem
    · simp [revert_resources_loop, hhit]
    · by_cases hp : present hd.name <;>
        simp [revert_resources_loop, hp, ih hmem]

/-- The cargo revert loop issues no delete for a key whose lookup reports
absent (for any delete oracle). -/
theorem revert_cargoes_loop_no_delete (nsp : String)
    (present : String → Bool) (delErr : String → Option String)
    (cs : List CargoSpecPartial) (k : String) (hmiss : present k = false) :
    PipeEvent.cargoDelete k ∉
      (revert_cargoes_loop nsp present delErr cs).2 := by
  induction cs with
  | nil => simp [revert_cargoes_loop]
  | cons hd rest ih =>
    by_cases hp : present (gen_key nsp hd.name)
    · have hne : gen_key nsp hd.name ≠ k := by
        intro hh
        rw [hh, hmiss] at hp
        exact Bool.noConfusion hp
      cases hde : delErr (gen_key nsp hd.name) with
      | some e => simp [revert_cargoes_loop, hp, hde, Ne.symm hne]
      | none => simp [revert_cargoes_loop, hp, hde, Ne.symm hne, ih]
    · simp [revert_cargoes_loop, hp, ih]

/-- The resource revert loop issues no delete for a name whose lookup
reports absent (for any delete oracle). -/
theorem revert_resources_loop_no_delete (present : String → Bool)
    (delErr : String → Option String) (rs : List ResourcePartial)
    (k : String) (hmiss : present k = false) :
    PipeEvent.resourceDelete k ∉
      (revert_resources_loop present delErr rs).2 := by
  induction rs with
  | nil => simp [revert_resources_loop]
  | cons hd rest ih =>
    by_cases hp : present hd.name
    · have hne : hd.name ≠ k := by
        intro hh
        rw [hh, hmiss] at hp
        exact Bool.noConfusion hp
      cases hde : delErr hd.name with
      | some e => simp [revert_resources_loop, hp, hde, Ne.symm hne]
      | none => simp [revert_resources_loop, hp, hde, Ne.symm hne, ih]
    · simp [revert_resources_loop, hp, ih]

/-- Closed form of `revert_deployment` when no delete fails: success, with
the trace made of the cargo header and cargo loop followed by the resource
header and resource loop. -/
theorem revert_deployment_no_delete_err (data : StateDeployment)
    (cPresent rPresent : String → Bool) :
    revert_deployment data cPresent rPresent (fun _ => none)
        (fun _ => none) =
      (.ok (),
        (match data.cargoes with
         | none => ([] : List PipeEvent)
         | some cs =>
           .sent (.msg
             s!"Deleting {cs.length} cargoes in namespace {data.nspOrGlobal}")
             :: (revert_cargoes_loop data.nspOrGlobal cPresent
               (fun _ => none) cs).2) ++
        (match data.resources with
         | none => ([] : List PipeEvent)
         | some rs =>
           .sent (.msg s!"Deleting {rs.length} resources") ::
             (revert_resources_loop rPresent (fun _ => none) rs).2)) := by
  have hc := revert_cargoes_loop_ok (data.nsp.getD "global") cPresent
  have hr := revert_resources_loop_ok rPresent
  cases hcs : data.cargoes with
  | none =>
    cases hrs : data.resources with
    | none => simp [revert_deployment, hcs, hrs]
    | some rs =>
      rcases hloop : revert_resources_loop rPresent (fun _ => none) rs
        with ⟨r1, t1⟩
      have h1 := hr rs
      rw [hloop] at h1
      simp at h1
      subst h1
      simp [revert_deployment, hcs, hrs, hloop]
  | some cs =>
    rcases hloopc : revert_cargoes_loop (data.nsp.getD "global") cPresent
      (fun _ => none) cs with ⟨r0, t0⟩
    have h0 := hc cs
    rw [hloopc] at h0
    simp at h0
    subst h0
    cases hrs : data.resources with
    | none =>
      simp [revert_deployment, hcs, hrs, StateDeployment.nspOrGlobal, hloopc]
    | some rs =>
      rcases hloop : revert_resources_loop rPresent (fun _ => none) rs
        with ⟨r1, t1⟩
      have h1 := hr rs
      rw [hloop] at h1
      simp at h1
      subst h1
      simp [revert_deployment, hcs, hrs, StateDeployment.nspOrGlobal, hloopc,
        hloop]

/-- The resource revert loop never issues a cargo delete. -/
theorem cargoDelete_not_mem_resources_loop (present : String → Bool)
    (delErr : String → Option String) (rs : List ResourcePartial)
    (k : String) :
    PipeEvent.cargoDelete k ∉ (revert_resources_loop present delErr rs).2 := by
  induction rs with
  | nil => simp [revert_resources_loop]
  | cons hd rest ih =>
    by_cases hp : present hd.name
    · cases hde : delErr hd.name with
      | some e => simp [revert_resources_loop, hp, hde]
      | none => simp [revert_resources_loop, hp, hde, ih]
    · simp [revert_resources_loop, hp, ih]

/-- The cargo revert loop never issues a resource delete. -/
theorem resourceDelete_not_mem_cargoes_loop (nsp : String)
    (present : String → Bool) (delErr : String → Option String)
    (cs : List CargoSpecPartial) (k : String) :
    PipeEvent.resourceDelete k ∉
      (revert_cargoes_loop nsp present delErr cs).2 := by
  induction cs with
  | nil => simp [revert_cargoes_loop]
  | cons hd rest ih =>
    by_cases hp : present (gen_key nsp hd.name)
    · cases hde : delErr (gen_key nsp hd.name) with
      | some e => simp [revert_cargoes_loop, hp, hde]
      | none => simp [revert_cargoes_loop, hp, hde, ih]
    · simp [revert_cargoes_loop, hp, ih]

/-- C8 (amended): with no delete failures, revert succeeds; a listed cargo
whose lookup misses is reported with `Skipping Cargo <name> [NOT FOUND]`
and the revert continues without that delete (respectively for resources);
a listed constituent whose lookup hits has its delete issued; and no
delete is ever issued for a key whose lookup reports absent. Hence
reverting the same document a second time succeeds and performs no
deletes, each constituent reported by its Skipping message — emitted
alongside the count headers (and each resource's `Deleting` announcement,
which precedes its lookup), not as the only messages of the stream. -/
theorem revert_lookup_semantics (data : StateDeployment)
    (cPresent rPresent : String → Bool) (res : Except String Unit)
    (t : List PipeEvent)
    (hrun : revert_deployment data cPresent rPresent (fun _ => none)
      (fun _ => none) = (res, t)) :
    res = .ok () ∧
    (∀ cs, data.cargoes = some cs → ∀ c ∈ cs,
      (cPresent (gen_key data.nspOrGlobal c.name) = false →
        PipeEvent.sent (.msg s!"Skipping Cargo {c.name} [NOT FOUND]") ∈ t) ∧
      (cPresent (gen_key data.nspOrGlobal c.name) = true →
        PipeEvent.cargoDelete (gen_key data.nspOrGlobal c.name) ∈ t)) ∧
    (∀ rs, data.resources = some rs → ∀ r ∈ rs,
      (rPresent r.name = false →
        PipeEvent.sent (.msg s!"Skipping Resource {r.name} [NOT FOUND]") ∈ t)
        ∧
      (rPresent r.name = true → PipeEvent.resourceDelete r.name ∈ t)) ∧
    (∀ k, cPresent k = false → PipeEvent.cargoDelete k ∉ t) ∧
    (∀ k, rPresent k = false → PipeEvent.resourceDelete k ∉ t) := by
  rw [revert_deployment_no_delete_err] at hrun
  injection hrun with h1 h2
  subst h1
  subst h2
  refine ⟨rfl, ?_, ?_, ?_, ?_⟩
  · intro cs hcs c hcmem
    refine ⟨fun hmiss => ?_, fun hhit => ?_⟩
    · refine List.mem_append.mpr (Or.inl ?_)
      simp only [hcs]
      exact List.mem_cons_of_mem _
        (revert_cargoes_loop_skip_mem _ _ _ _ hcmem hmiss)
    · refine List.mem_append.mpr (Or.inl ?_)
      simp only [hcs]
      exact List.mem_cons_of_mem _
        (revert_cargoes_loop_delete_mem _ _ _ _ hcmem hhit)
  · intro rs hrs r hrmem
    refine ⟨fun hmiss => ?_, fun hhit => ?_⟩
    · refine List.mem_append.mpr (Or.inr ?_)
      simp only [hrs]
      exact List.mem_cons_of_mem _
        (revert_resources_loop_skip_mem _ _ _ hrmem hmiss)
    · refine List.mem_append.mpr (Or.inr ?_)
      simp only [hrs]
      exact List.mem_cons_of_mem _
        (revert_resources_loop_delete_mem _ _ _ hrmem hhit)
  · intro k hmiss hmem
    rcases List.mem_append.mp hmem with h | h
    · cases hcs : data.cargoes with
      | none => rw [hcs] at h; simp at h
      | some cs =>
        rw [hcs] at h
        simp only [List.mem_cons] at h
        rcases h with h | h
        · exact PipeEvent.noConfusion h
        · exact revert_cargoes_loop_no_delete _ _ _ _ _ hmiss h
    · cases hrs : data.resources with
      | none => rw [hrs] at h; simp at h
      | some rs =>
        rw [hrs] at h
        simp only [List.mem_cons] at h
        rcases h with h | h
        · exact PipeEvent.noConfusion h
        · exact cargoDelete_not_mem_resources_loop _ _ _ _ h
  · intro k hmiss hmem
    rcases List.mem_append.mp hmem with h | h
    · cases hcs : data.cargoes with
      | none => rw [hcs] at h; simp at h
      | some cs =>
        rw [hcs] at h
        simp only [List.mem_cons] at h
        rcases h with h | h
        · exact PipeEvent.noConfusion h
        · exact resourceDelete_not_mem_cargoes_loop _ _ _ _ _ h
    · cases hrs : data.resources with
      | none => rw [hrs] at h; simp at h
      | some rs =>
        rw [hrs] at h
        simp only [List.mem_cons] at h
        rcases h with h | h
        · exact PipeEvent.noConfusion h
        · exact revert_resources_loop_no_delete _ _ _ _ hmiss h

/-- Witness for `revert_lookup_semantics`: reverting the two-cargo
deployment a second time (nothing present) succeeds, reports both cargoes
as Skipping, and issues no delete. -/
theorem revert_lookup_semantics_witness :
    (revert_deployment deploymentAB (fun _ => false) (fun _ => false)
      (fun _ => none) (fun _ => none)).1 = .ok () ∧
    PipeEvent.sent (.msg "Skipping Cargo a [NOT FOUND]") ∈
      (revert_deployment deploymentAB (fun _ => false) (fun _ => false)
        (fun _ => none) (fun _ => none)).2 ∧
    PipeEvent.cargoDelete "a.demo" ∉
      (revert_deployment deploymentAB (fun _ => false) (fun _ => false)
        (fun _ => none) (fun _ => none)).2 := by
  have h := revert_lookup_semantics deploymentAB (fun _ => false)
    (fun _ => false)
    (revert_deployment deploymentAB (fun _ => false) (fun _ => false)
      (fun _ => none) (fun _ => none)).1
    (revert_deployment deploymentAB (fun _ => false) (fun _ => false)
      (fun _ => none) (fun _ => none)).2 rfl
  refine ⟨h.1, ?_, h.2.2.2.1 "a.demo" rfl⟩
  have hs := (h.2.1 [cargoA, cargoB] rfl cargoA (by simp)).1 rfl
  simpa [cargoA] using hs

/-- C8 (counterexample to the claim as stated): the second revert of the
two-cargo deployment does not emit only Skipping messages — its stream
also carries the count header `Deleting 2 cargoes in namespace demo`,
which is not a `Skipping … [NOT FOUND]` message for any name. -/
theorem revert_skipping_counterexample :
    (revert_deployment deploymentAB (fun _ => false) (fun _ => false)
        (fun _ => none) (fun _ => none)).2 =
      [.sent (.msg "Deleting 2 cargoes in namespace demo"),
        .sent (.msg "Skipping Cargo a [NOT FOUND]"),
        .sent (.msg "Skipping Cargo b [NOT FOUND]")] ∧
    (∀ name : String, "Deleting 2 cargoes in namespace demo" ≠
      "Skipping Cargo " ++ name ++ " [NOT FOUND]") ∧
    (∀ name : String, "Deleting 2 cargoes in namespace demo" ≠
      "Skipping Resource " ++ name ++ " [NOT FOUND]") := by
  refine ⟨rfl, ?_, ?_⟩ <;>
  · intro name h
    have h2 := congrArg String.data h
    simp only [String.data_append] at h2
    have h3 := congrArg List.head? h2
    simp at h3

/-! ## State document parsing (claim C6) -/

/-- C6 (amended): `parse_state` dispatches on the `Kind` discriminator and
accepts exactly three kinds — `Deployment`, `Cargo` and `Resource` — each
returning its correspondingly shaped parsed state when the payload
decodes; any other kind, including `Vm` and `Job`, is rejected with a 400
`"unknown type"` error, and an undecodable header yields a 400
serialization error. -/
theorem parse_state_dispatch (data : Json) :
    (∀ m, decodeStateMeta data = some m →
      ((m.kind = "Deployment" →
        parse_state data =
          (match decodeStateDeployment data with
           | some d => .ok (.deployment d)
           | none =>
             .error { status := 400, msg := "unable to serialize payload" }))
        ∧
       (m.kind = "Cargo" →
        parse_state data =
          (match decodeStateCargo data with
           | some c => .ok (.cargo c)
           | none =>
             .error { status := 400, msg := "unable to serialize payload" }))
        ∧
       (m.kind = "Resource" →
        parse_state data =
          (match decodeStateResources data with
           | some r => .ok (.resource r)
           | none =>
             .error { status := 400, msg := "unable to serialize payload" }))
        ∧
       (m.kind ≠ "Deployment" → m.kind ≠ "Cargo" → m.kind ≠ "Resource" →
        parse_state data =
          .error { status := 400, msg := "unknown type" }))) ∧
    (decodeStateMeta data = none →
      parse_state data =
        .error { status := 400, msg := "unable to serialize payload" }) := by
  constructor
  · intro m hm
    refine ⟨fun h1 => ?_, fun h1 => ?_, fun h1 => ?_, fun h1 h2 h3 => ?_⟩
    · simp [parse_state, hm, h1]
    · simp [parse_state, hm, h1]
    · simp [parse_state, hm, h1]
    · simp only [parse_state, hm]
  · intro hm
    simp [parse_state, hm]

/-- Witness for `parse_state_dispatch`: the `Vm` and `Job` kinds are
rejected with 400 `"unknown type"`, while a minimal `Deployment` document
is accepted. -/
theorem parse_state_dispatch_witness :
    parse_state vmKindDoc =
      .error { status := 400, msg := "unknown type" } ∧
    parse_state jobKindDoc =
      .error { status := 400, msg := "unknown type" } ∧
    parse_state (.obj [("Kind", .str "Deployment")]) =
      .ok (.deployment { nsp := none, cargoes := none, vms := none
                         resources := none, jobs := none }) :=
  ⟨((parse_state_dispatch vmKindDoc).1 { kind := "Vm" } rfl).2.2.2
      (by decide) (by decide) (by decide),
    ((parse_state_dispatch jobKindDoc).1 { kind := "Job" } rfl).2.2.2
      (by decide) (by decide) (by decide),
    (((parse_state_dispatch (.obj [("Kind", .str "Deployment")])).1
      { kind := "Deployment" } rfl).1 rfl).trans rfl⟩

/-- C6 (counterexample to the claim as stated): `parse_state` does not
accept the `Vm` or `Job` kind discriminators — both well-formed documents
are rejected with the 400 `"unknown type"` error. -/
theorem parse_state_counterexample :
    parse_state vmKindDoc =
      .error { status := 400, msg := "unknown type" } ∧
    parse_state jobKindDoc =
      .error { status := 400, msg := "unknown type" } := ⟨rfl, rfl⟩

/-! ## Spec registry round-trip (claim C9) -/

/-- Optional-string fields decode back to themselves. -/
theorem decOptStr_enc (v : Option String) :
    decOptStr (encOptStr v) = some v := by
  cases v <;> rfl

/-- Optional-boolean fields decode back to themselves. -/
theorem decOptBool_enc (v : Option Bool) :
    decOptBool (encOptBool v) = some v := by
  cases v <;> rfl

/-- String arrays decode back to themselves. -/
theorem decStrList_map (xs : List String) :
    decStrList (.arr (xs.map Json.str)) = some xs := by
  induction xs with
  | nil => rfl
  | cons x xs ih =>
    simp only [decStrList] at ih
    simp only [List.map_cons, decStrList, List.foldr_cons, ih]

/-- Encoded string lists decode back to themselves. -/
theorem decStrList_enc (xs : List String) :
    decStrList (encStrList xs) = some xs :=
  decStrList_map xs

/-- Optional string lists decode back to themselves. -/
theorem decOptStrList_enc (v : Option (List String)) :
    decOptStrList (encOptStrList v) = some v := by
  cases v with
  | none => rfl
  | some xs => simp only [encOptStrList, encStrList, decOptStrList,
      decStrList_map]

/-- Device mappings decode back to themselves. -/
theorem decodeDeviceMapping_enc (d : DeviceMapping) :
    decodeDeviceMapping (encodeDeviceMapping d) = some d := by
  rcases d with ⟨a, b, c⟩
  simp [encodeDeviceMapping, decodeDeviceMapping, decOptStr_enc]

/-- Device-mapping arrays fold back to themselves. -/
theorem devices_fold (ds : List DeviceMapping) :
    (ds.map encodeDeviceMapping).foldr
      (fun e acc =>
        match decodeDeviceMapping e, acc with
        | some d, some ds => some (d :: ds)
        | _, _ => none)
      (some ([] : List DeviceMapping)) = some ds := by
  induction ds with
  | nil => rfl
  | cons d ds ih => simp [ih, decodeDeviceMapping_enc]

/-- Optional device-mapping lists decode back to themselves. -/
theorem decOptDevices_enc (v : Option (List DeviceMapping)) :
    decOptDevices (encOptDevices v) = some v := by
  cases v with
  | none => rfl
  | some ds => simp only [encOptDevices, decOptDevices, devices_fold]

/-- Label objects fold back to themselves. -/
theorem labels_fold (ls : List (String × String)) :
    (ls.map (fun kv => (kv.1, Json.str kv.2))).foldr
      (fun kv acc =>
        match kv.2, acc with
        | .str v, some ls => some ((kv.1, v) :: ls)
        | _, _ => none)
      (some ([] : List (String × String))) = some ls := by
  induction ls with
  | nil => rfl
  | cons kv ls ih => simp [ih]

/-- Optional label maps decode back to themselves. -/
theorem decOptLabels_enc (v : Option (List (String × String))) :
    decOptLabels (encOptLabels v) = some v := by
  cases v with
  | none => rfl
  | some ls => simp only [encOptLabels, decOptLabels, labels_fold]

/-- Optional host configurations decode back to themselves. -/
theorem decOptHostConfig_enc (v : Option HostConfig) :
    decOptHostConfig (encOptHostConfig v) = some v := by
  cases v with
  | none => rfl
  | some h =>
    rcases h with ⟨nm, b, d, c⟩
    simp [encOptHostConfig, encodeHostConfig, decOptHostConfig,
      decodeHostConfig, decOptStr_enc, decOptStrList_enc, decOptDevices_enc]

/-- Unfolding of `decodeContainerSpec` on the encoded object shape. -/
theorem decodeContainerSpec_obj (i t hn e l cm ae ai ao o hc : Json) :
    decodeContainerSpec (.obj [("Image", i), ("Tty", t), ("Hostname", hn),
        ("Env", e), ("Labels", l), ("Cmd", cm), ("AttachStderr", ae),
        ("AttachStdin", ai), ("AttachStdout", ao), ("OpenStdin", o),
        ("HostConfig", hc)]) =
      (match decOptStr i, decOptBool t, decOptStr hn, decOptStrList e,
        decOptLabels l, decOptStrList cm with
      | some i', some t', some hn', some e', some l', some cm' =>
        (match decOptBool ae, decOptBool ai, decOptBool ao, decOptBool o,
          decOptHostConfig hc with
        | some ae', some ai', some ao', some o', some hc' =>
          some { image := i'
                 tty := t'
                 hostname := hn'
                 env := e'
                 labels := l'
                 cmd := cm'
                 attach_stderr := ae'
                 attach_stdin := ai'
                 attach_stdout := ao'
                 open_stdin := o'
                 host_config := hc' }
        | _, _, _, _, _ => none)
      | _, _, _, _, _, _ => none) := rfl

/-- Container configurations decode back to themselves. -/
theorem decodeContainerSpec_enc (c : ContainerSpec) :
    decodeContainerSpec (encodeContainerSpec c) = some c := by
  rcases c with ⟨i, t, hn, e, l, cm, ae, ai, ao, o, hc⟩
  rw [encodeContainerSpec]
  rw [decodeContainerSpec_obj]
  simp only [decOptStr_enc, decOptBool_enc, decOptStrList_enc,
    decOptLabels_enc, decOptHostConfig_enc]

/-- Replication modes decode back to themselves. -/
theorem decodeReplicationMode_enc (r : ReplicationMode) :
    decodeReplicationMode (encodeReplicationMode r) = some r := by
  cases r with
  | auto => rfl
  | unique => rfl
  | uniqueByNode => rfl
  | uniqueByNodeGroups groups =>
    rw [encodeReplicationMode,
      show decodeReplicationMode (.obj [("Mode", .str "UniqueByNodeGroups"),
          ("groups", encStrList groups)]) =
        (match decStrList (encStrList groups) with
         | some gs => some (.uniqueByNodeGroups gs)
         | none => none) from rfl, decStrList_enc]
  | uniqueByNodeNames names =>
    rw [encodeReplicationMode,
      show decodeReplicationMode (.obj [("Mode", .str "UniqueByNodeNames"),
          ("names", encStrList names)]) =
        (match decStrList (encStrList names) with
         | some ns => some (.uniqueByNodeNames ns)
         | none => none) from rfl, decStrList_enc]
  | staticReplica number => rfl
  | staticByNodes number => rfl
  | staticByNodeGroups groups number =>
    rw [encodeReplicationMode,
      show decodeReplicationMode (.obj [("Mode", .str "StaticByNodeGroups"),
          ("groups", encStrList groups), ("number", .num number)]) =
        (match decStrList (encStrList groups) with
         | some gs => some (.staticByNodeGroups gs number)
         | none => none) from rfl, decStrList_enc]
  | staticByNodeNames names number =>
    rw [encodeReplicationMode,
      show decodeReplicationMode (.obj [("Mode", .str "StaticByNodeNames"),
          ("names", encStrList names), ("number", .num number)]) =
        (match decStrList (encStrList names) with
         | some ns => some (.staticByNodeNames ns number)
         | none => none) from rfl, decStrList_enc]

/-- Unfolding of `decodeCargoSpecPartial` on an object. -/
theorem decodeCargoSpecPartial_obj (fields : List (String × Json)) :
    decodeCargoSpecPartial (.obj fields) =
      (if fields.all (fun kv => cargoSpecPartialKeys.contains kv.1) then
        match getField fields "Name", getField fields "Container" with
        | some (.str name), some cjson =>
          match decodeContainerSpec cjson with
          | some container =>
            match
              (match getField fields "InitContainer" with
               | none => some none
               | some j => (decodeContainerSpec j).map some),
              (match getField fields "Secrets" with
               | none => some none
               | some j => (decStrList j).map some),
              (match getField fields "Replication" with
               | none => some none
               | some j => (decodeReplicationMode j).map some)
            with
            | some ic, some sec, some rep =>
              some { name := name
                     metadata := getField fields "Metadata"
                     init_container := ic
                     secrets := sec
                     container := container
                     replication := rep }
            | _, _, _ => none
          | none => none
        | _, _ => none
      else none) := rfl

/-- `getField` computation on a cons cell. -/
theorem getField_cons (k : String) (v : Json) (rest : List (String × Json))
    (kk : String) :
    getField ((k, v) :: rest) kk =
      if k = kk then some v else getField rest kk := by
  simp only [getField, List.find?]
  by_cases h : k = kk <;> simp [h]

/-- Cargo spec partials decode back to themselves. -/
theorem decodeCargoSpecPartial_enc (p : CargoSpecPartial) :
    decodeCargoSpecPartial (encodeCargoSpecPartial p) = some p := by
  rcases p with ⟨name, metadata, ic, sec, container, rep⟩
  cases metadata <;> cases ic <;> cases sec <;> cases rep <;>
    simp [encodeCargoSpecPartial, optField, decodeCargoSpecPartial_obj,
      cargoSpecPartialKeys, getField_cons, getField,
      decodeContainerSpec_enc, decodeReplicationMode_enc, decStrList_enc]

/-- C9: minting a Spec row with `try_from_cargo_partial` records kind name
`Cargo`, the given kind key and version, and the JSON serialisation of the
partial; converting the row back with `try_to_cargo_spec` reconstructs the
`CargoSpec` whose payload fields equal those of the partial. -/
theorem spec_roundtrip (fresh_key : String) (now : Int) (key version : String)
    (p : CargoSpecPartial) :
    ( try_from_cargo_partial fresh_key now key version p).kind_name = "Cargo" ∧
    ( try_from_cargo_partial fresh_key now key version p).kind_key = key ∧
    ( try_from_cargo_partial fresh_key now key version p).version = version ∧
    ( try_from_cargo_partial fresh_key now key version p).data =
      encodeCargoSpecPartial p ∧
    ( try_from_cargo_partial fresh_key now key version p).try_to_cargo_spec =
      some { key := fresh_key
             cargo_key := key
             version := version
             created_at := now
             name := p.name
             metadata := p.metadata
             init_container := p.init_container
             secrets := p.secrets
             container := p.container
             replication := p.replication } := by
  refine ⟨rfl, rfl, rfl, rfl, ?_⟩
  simp [SpecDb.try_to_cargo_spec, try_from_cargo_partial,
    decodeCargoSpecPartial_enc]

end Nanocl
